import Mathlib

set_option maxRecDepth 8000

/-!
Shallow embedding of the Mythic Mixology Google Apps Script backend:
the deterministic drink-generation engine (seeded PRNG, zodiac lookup,
numerology reduction, lineage inference, five generator functions),
request validation, OpenAI blueprint normalization with deterministic
fallback, and the spreadsheet persistence layer (rows as records).
Ambient inputs of the script (the current date, script properties, HTTP
responses, generated UUIDs and timestamps) are modelled as explicit
parameters.  JS numbers are modelled as Nat, Int or Rat depending on the
values that can actually reach each site; 32-bit bitwise operations are
modelled on Nat with explicit reduction modulo 2 to the 32.
-/

namespace MythicMixology

/-- The single-quote character, used inside JS template strings. -/
def apos : String := String.singleton (Char.ofNat 39)

/-- The bullet character U+2022 used to join and split recipe line items. -/
def bulletChar : Char := Char.ofNat 8226

/-- ASCII whitespace stripped by the model of the JS String.trim method
(the JS method also strips other Unicode space code points, which never
occur in this development). -/
def isJsWs (c : Char) : Bool := c == ' ' || c == Char.ofNat 9 || c == Char.ofNat 10 || c == Char.ofNat 13

/-- Drop leading and trailing whitespace from a character list. -/
def trimChars (l : List Char) : List Char :=
  ((l.dropWhile isJsWs).reverse.dropWhile isJsWs).reverse

/-- Model of the JS String.prototype.trim method. -/
def jsTrim (s : String) : String := String.mk (trimChars s.data)

/-- Model of the JS String.prototype.split method for a single-character
separator: splitting the empty list yields one empty field, and every
separator occurrence starts a new field. -/
def splitOnCharList (sep : Char) : List Char → List (List Char)
  | [] => [[]]
  | c :: cs =>
    if c == sep then [] :: splitOnCharList sep cs
    else
      match splitOnCharList sep cs with
      | [] => [[c]]
      | g :: gs => (c :: g) :: gs

/-- String wrapper for splitOnCharList. -/
def splitOnCharStr (sep : Char) (s : String) : List String :=
  (splitOnCharList sep s.data).map String.mk

/-- Model of the JS Array.prototype.join method. -/
def joinStrings (sep : String) : List String → String
  | [] => ""
  | [x] => x
  | x :: y :: rest => x ++ sep ++ joinStrings sep (y :: rest)

/-- Left-pad a string with zeros up to the given length. -/
def padZeros (d : Nat) (s : String) : String :=
  String.mk (List.replicate (d - s.length) '0') ++ s

/-- Model of the JS Number.prototype.toFixed method for the nonnegative
exactly-representable values reached in this program: round the scaled
value half toward positive infinity (the tie rule of the toFixed spec)
and print with the requested number of decimals. -/
def jsToFixed (digits : Nat) (q : ℚ) : String :=
  let p : Nat := 10 ^ digits
  let n : Int := ⌊q * (p : ℚ) + 1 / 2⌋
  let ip : Int := n / (p : Int)
  let fp : Nat := (n % (p : Int)).toNat
  toString ip ++ "." ++ padZeros digits (toString fp)

/-- Model of JS Math.round: round half toward positive infinity. -/
def jsRound (q : ℚ) : Int := ⌊q + 1 / 2⌋

/-- Model of JS indexing into an array of strings with an Int index:
out-of-range access yields undefined, which prints as the string
undefined when interpolated. -/
def jsIndex (l : List String) (i : Int) : String :=
  if 0 ≤ i then l.getD i.toNat "undefined" else "undefined"

/-- Model of the JS expression (s[0] or empty).toUpperCase(): the
uppercased first character as a string, empty for the empty string. -/
def charAt0Upper (s : String) : String :=
  match s.data with
  | [] => ""
  | c :: _ => String.singleton c.toUpper

/-- First character of a string, uppercased (the sanitized names this is
applied to are never empty, so the default is unreachable). -/
def headUpperChar (s : String) : Char :=
  (s.data.headD ' ').toUpper

/-! ## Seeded PRNG (createDeterministicRandom_) -/

/-- Two to the 32, the modulus of the unsigned 32-bit bit patterns. -/
def u32 : Nat := 4294967296

/-- Model of JS Math.imul: 32-bit multiplication, tracked as the
unsigned bit pattern. -/
def imul32 (a b : Nat) : Nat := (a * b) % u32

/-- 32-bit xor of two unsigned bit patterns. -/
def xor32 (a b : Nat) : Nat := (a ^^^ b) % u32

/-- Model of the JS expression (h shifted left 13) or (h unsigned-shifted
right 19) on a 32-bit pattern: a rotation left by 13. -/
def rotl13 (h : Nat) : Nat := ((h <<< 13) % u32) ||| (h >>> 19)

/-- Seed mixing loop of createDeterministicRandom_: start from
1779033703 xor the seed length and fold every character code in. -/
def prngInit (seed : List Nat) : Nat :=
  seed.foldl (fun h c => rotl13 (imul32 (xor32 h c) 3432918353)) (xor32 1779033703 seed.length)

/-- One step of the returned closure: the avalanche mix producing the
next 32-bit state; the drawn value is the new state divided by 2^32. -/
def prngNext (h : Nat) : Nat :=
  let h1 := imul32 (xor32 h (h >>> 16)) 2246822507
  let h2 := imul32 (xor32 h1 (h1 >>> 13)) 3266489909
  xor32 h2 (h2 >>> 16)

/-- Model of createDeterministicRandom_: the creation of the closure is
modelled by computing the initial hidden state for the seed string
(charCodeAt is the code point for the basic-plane strings used here). -/
def createDeterministicRandom_ (seed : String) : Nat :=
  prngInit (seed.data.map Char.toNat)

/-- The i-th value (0-based) drawn from a PRNG whose hidden state is h:
the state after i+1 steps, scaled to the unit interval. -/
def nthDraw (h : Nat) (i : Nat) : ℚ :=
  ((prngNext^[i + 1] h : Nat) : ℚ) / (u32 : ℚ)

/-- The list of the first n values drawn from hidden state h. -/
def drawValues (h : Nat) (n : Nat) : List ℚ :=
  (List.range n).map (nthDraw h)

/-! ## Selection utilities (randomPick_, buildUniqueSelection_) -/

/-- Model of randomPick_: pick index floor(random() times length); the
drawn value is s over 2^32 for the new state s, so the floor is exact
integer arithmetic.  Returns the picked element (none models the JS null
returned for an empty collection, drawn without consuming a value) and
the advanced PRNG state. -/
def randomPick_ {α : Type} (h : Nat) (collection : List α) : Option α × Nat :=
  if collection.isEmpty then (none, h)
  else
    let h2 := prngNext h
    ((collection.get? ((h2 * collection.length) / u32)), h2)

/-- Loop of buildUniqueSelection_: while fewer than count elements are
selected and the pool is nonempty, draw an index into the shrinking pool
and move that element to the selection.  The fuel argument bounds the
iteration count; it is always called with fuel at least the pool length,
which suffices because every iteration removes one pool element. -/
def buildUniqueLoop {α : Type} (count : Int) : Nat → Nat → List α → List α → List α × Nat
  | 0, h, _, selection => (selection, h)
  | fuel + 1, h, available, selection =>
    if (selection.length : Int) < count ∧ 0 < available.length then
      let h2 := prngNext h
      let idx := (h2 * available.length) / u32
      match available.get? idx with
      | some x => buildUniqueLoop count fuel h2 (available.eraseIdx idx) (selection ++ [x])
      | none => (selection, h)
    else (selection, h)

/-- Model of buildUniqueSelection_: sample count distinct elements
without replacement from options, threading the PRNG state. -/
def buildUniqueSelection_ {α : Type} (h : Nat) (options : List α) (count : Int) : List α × Nat :=
  buildUniqueLoop count options.length h options []

/-! ## Numerology (computeNumerologyValue_) -/

/-- Decimal digit sum, with an explicit fuel argument for structural
recursion; digitSum supplies fuel equal to the number itself, which is
sufficient since the recursion divides by ten. -/
def digitSumAux : Nat → Nat → Nat
  | 0, _ => 0
  | _ + 1, 0 => 0
  | fuel + 1, n + 1 => ((n + 1) % 10) + digitSumAux fuel ((n + 1) / 10)

/-- Decimal digit sum of a natural number. -/
def digitSum (n : Nat) : Nat := digitSumAux n n

/-- Reduction loop of computeNumerologyValue_: while the total exceeds
nine, replace it by its decimal digit sum.  Fuel equal to the starting
total is sufficient because the digit sum of a number above nine is
strictly smaller. -/
def reduceAux : Nat → Nat → Nat
  | 0, t => t
  | fuel + 1, t => if 9 < t then reduceAux fuel (digitSum t) else t

/-- Repeated digit-sum reduction of a total to a single digit. -/
def reduceTotal (t : Nat) : Nat := reduceAux t t

/-- The sanitization step of computeNumerologyValue_: uppercase the text
and keep only the characters A through Z. -/
def numerologyLetters (text : String) : List Char :=
  (text.data.map Char.toUpper).filter (fun c => 65 ≤ c.toNat && c.toNat ≤ 90)

/-- Sum of the 1-indexed alphabet positions (char code minus 64) of the
sanitized letters. -/
def letterTotal (text : String) : Nat :=
  ((numerologyLetters text).map (fun c => c.toNat - 64)).sum

/-- Model of computeNumerologyValue_: reduce the letter total to a
single digit and clamp up to at least one. -/
def computeNumerologyValue_ (text : String) : Nat :=
  max 1 (reduceTotal (letterTotal text))

/-! ## Zodiac lookup (getZodiacProfile_) -/

/-- One row of the zodiac table.  The month-day interval endpoints of
the source are stored as parsed numbers. -/
structure ZodiacProfile where
  sign : String
  startMonth : Nat
  startDay : Nat
  endMonth : Nat
  endDay : Nat
  element : String
  signatureSpirit : String
  accentNotes : List String
  garnishes : List String
deriving DecidableEq

instance : Inhabited ZodiacProfile :=
  ⟨⟨"", 0, 0, 0, 0, "", "", [], []⟩⟩

/-- The fixed 12-entry zodiac table of getZodiacProfile_. -/
def zodiacProfiles : List ZodiacProfile := [
  ⟨"Capricorn", 12, 22, 1, 19, "Earth", "smoky scotch", ["black walnut", "roasted barley", "cocoa bitters"], ["candied ginger", "charred rosemary"]⟩,
  ⟨"Aquarius", 1, 20, 2, 18, "Air", "aquavit", ["violet liqueur", "sparkling sake", "blue citrus"], ["edible flower constellation", "citrus spiral"]⟩,
  ⟨"Pisces", 2, 19, 3, 20, "Water", "silver rum", ["elderflower", "sea-salt caramel", "cucumber essence"], ["lotus petal", "sea mist"]⟩,
  ⟨"Aries", 3, 21, 4, 19, "Fire", "pepper tequila", ["ancho chile", "blood orange", "ginger fire"], ["flamed citrus peel", "pimentón rim"]⟩,
  ⟨"Taurus", 4, 20, 5, 20, "Earth", "bourbon", ["vanilla bean", "toasted pecan", "fig syrup"], ["cocoa-dusted leaf", "torched thyme"]⟩,
  ⟨"Gemini", 5, 21, 6, 20, "Air", "gin", ["citrus mist", "white tea", "champagne cordial"], ["lemon twist", "sugar shard"]⟩,
  ⟨"Cancer", 6, 21, 7, 22, "Water", "dark rum", ["coconut cream", "hibiscus", "molasses"], ["tropical flower", "toasted coconut"]⟩,
  ⟨"Leo", 7, 23, 8, 22, "Fire", "spiced rum", ["passionfruit", "saffron honey", "cinnamon blaze"], ["golden mango fan", "sparkler sugar rim"]⟩,
  ⟨"Virgo", 8, 23, 9, 22, "Earth", "herbal vermouth", ["green apple", "sage dew", "white pepper"], ["apple ribbon", "sage leaf"]⟩,
  ⟨"Libra", 9, 23, 10, 22, "Air", "sparkling rosé", ["lavender", "pink peppercorn", "pear nectar"], ["rose petal", "sugar lace"]⟩,
  ⟨"Scorpio", 10, 23, 11, 21, "Water", "mezcal", ["blackberry smoke", "cocoa nib", "charred citrus"], ["obsidian salt rim", "cocoa mist"]⟩,
  ⟨"Sagittarius", 11, 22, 12, 21, "Fire", "rye whiskey", ["spiced maple", "cranberry flame", "ginger snap"], ["sparked cinnamon stick", "dried orange wheel"]⟩]

/-- Days of the reference year 2000 (a leap year) elapsed before the
given month; applied only to months 1 through 12. -/
def daysBeforeMonth2000 : Nat → Nat
  | 1 => 0
  | 2 => 31
  | 3 => 60
  | 4 => 91
  | 5 => 121
  | 6 => 152
  | 7 => 182
  | 8 => 213
  | 9 => 244
  | 10 => 274
  | 11 => 305
  | 12 => 335
  | _ => 366

/-- Ordinal of the Date object new Date(2000, month minus 1, day) inside
the reference year: comparisons of such Date objects order exactly like
this value, including the JS rollover of out-of-range days into the
following months. -/
def dateValue (month day : Nat) : Nat := daysBeforeMonth2000 month + day

/-- Membership test of the loop body of getZodiacProfile_: plain
interval when the start does not exceed the end, wrap-around interval
otherwise; both edges inclusive. -/
def zodiacMatches (p : ZodiacProfile) (t : Nat) : Bool :=
  let s := dateValue p.startMonth p.startDay
  let e := dateValue p.endMonth p.endDay
  if s ≤ e then decide (s ≤ t) && decide (t ≤ e)
  else decide (s ≤ t) || decide (t ≤ e)

/-- Model of getZodiacProfile_: first matching table entry, with the
first entry as the defensive fallback. -/
def getZodiacProfile_ (month day : Nat) : ZodiacProfile :=
  let t := dateValue month day
  match zodiacProfiles.find? (fun p => zodiacMatches p t) with
  | some p => p
  | none => zodiacProfiles.headI

/-! ## Lineage, season, initials flavor, generator labels -/

/-- Model of inferLineage_: the ordered suffix and prefix rules of the
source regular expressions, first match wins. -/
def inferLineage_ (lastName : String) : String :=
  let lower := String.map Char.toLower lastName
  if lower.endsWith "ini" || lower.endsWith "one" || lower.endsWith "etti" then "italian"
  else if lower.startsWith ("o" ++ apos) || lower.startsWith "mc" || lower.startsWith "mac" || lower.endsWith "han" then "irish"
  else if lower.endsWith "ez" || lower.endsWith "es" || lower.endsWith "ado" || lower.endsWith "illo" then "spanish"
  else if lower == "ito" || lower == "shi" || lower.endsWith "moto" || lower.endsWith "sato" || lower.endsWith "-san" then "japanese"
  else if lower.endsWith "eau" || lower.endsWith "ette" || lower.endsWith "mont" || lower.endsWith "eux" then "french"
  else if lower.endsWith "sen" || lower.endsWith "son" || lower.endsWith "gaard" || lower.endsWith "strom" then "nordic"
  else "default"

/-- Model of inferBirthSeason_. -/
def inferBirthSeason_ (month : Nat) : String :=
  if month = 12 ∨ month = 1 ∨ month = 2 then "winter"
  else if month = 3 ∨ month = 4 ∨ month = 5 then "spring"
  else if month = 6 ∨ month = 7 ∨ month = 8 then "summer"
  else "autumn"

/-- The initials-to-flavor table of buildInitialsFlavor_. -/
def initialsFlavorTable : List (Char × String) := [
  ('A', "almond and apricot spark"), ('B', "bourbon bark balance"),
  ('C', "cacao and citrus pop"), ('D', "dragonfruit dynamism"),
  ('E', "elderflower echo"), ('F', "fig and fennel warmth"),
  ('G', "grapefruit glow"), ('H', "hibiscus hum"),
  ('I', "iris ice intrigue"), ('J', "juniper jazz"),
  ('K', "kumquat kick"), ('L', "lemongrass lift"),
  ('M', "minted meteor trail"), ('N', "nutmeg nuance"),
  ('O', "orchid opulence"), ('P', "peppercorn pulse"),
  ('Q', "quince quickstep"), ('R', "rosewater radiance"),
  ('S', "saffron spark"), ('T', "tamarind twist"),
  ('U', "ume uplift"), ('V', "vermouth velvet"),
  ('W', "walnut wonder"), ('X', "xocolatl excitement"),
  ('Y', "yuzu yearn"), ('Z', "zest zenith")]

/-- Model of buildInitialsFlavor_: map each initial through the table,
default phrase otherwise, joined with an ampersand. -/
def buildInitialsFlavor_ (initials : String) : String :=
  joinStrings " & " (initials.data.map (fun c => (initialsFlavorTable.lookup c).getD "starlit surprise"))

/-- The GENERATOR_LABELS object, modelled as an association list over
its own properties. -/
def GENERATOR_LABELS : List (String × String) := [
  ("astro", "Astrological Elixir Generator"),
  ("numerology", "Name Numerology Mixer"),
  ("chrono", "Birthday Chrono-Cocktail"),
  ("oracle", "Personalized Palate Oracle"),
  ("dynasty", "Dynastic Drink Dynasty")]

/-- Properties every plain JS object inherits from Object.prototype,
all of whose values are truthy (methods, and the prototype object
itself under the proto accessor).  A bracket lookup on the frozen
GENERATOR_LABELS literal finds these after the own properties. -/
def objectPrototypeKeys : List String := [
  "constructor", "hasOwnProperty", "isPrototypeOf", "propertyIsEnumerable",
  "toLocaleString", "toString", "valueOf",
  "__defineGetter__", "__defineSetter__", "__lookupGetter__", "__lookupSetter__",
  "__proto__"]

/-- Truthiness of the JS bracket lookup GENERATOR_LABELS[key]: truthy
for the five own label entries (nonempty strings) and for the inherited
Object.prototype properties; falsy (undefined) for every other key. -/
def generatorLabelsTruthy (key : String) : Bool :=
  (GENERATOR_LABELS.lookup key).isSome || objectPrototypeKeys.contains key

/-! ## Requests and contexts -/

/-- A sanitized generation request (output of
sanitizeGenerationRequest_). -/
structure GenerationRequest where
  generatorKey : String
  birthMonth : Nat
  birthDay : Nat
  birthYear : Nat
  firstName : String
  lastName : String
deriving DecidableEq

/-- The deterministic generation context of buildGenerationContext_.
The stateful random closure of the source is modelled by its initial
hidden PRNG state h0; generators thread the state explicitly in the
order the source draws values. -/
structure GenerationContext where
  generatorKey : String
  generatorLabel : String
  birthMonth : Nat
  birthDay : Nat
  birthYear : Nat
  firstName : String
  lastName : String
  zodiac : ZodiacProfile
  numerology : Nat
  initials : String
  lineage : String
  h0 : Nat
  seed : String
deriving DecidableEq

/-- Model of buildGenerationContext_. -/
def buildGenerationContext_ (request : GenerationRequest) : GenerationContext :=
  let seed := joinStrings "|" [request.generatorKey, toString request.birthMonth,
    toString request.birthDay, toString request.birthYear, request.firstName, request.lastName]
  { generatorKey := request.generatorKey
    generatorLabel := (GENERATOR_LABELS.lookup request.generatorKey).getD "undefined"
    birthMonth := request.birthMonth
    birthDay := request.birthDay
    birthYear := request.birthYear
    firstName := request.firstName
    lastName := request.lastName
    zodiac := getZodiacProfile_ request.birthMonth request.birthDay
    numerology := computeNumerologyValue_ (request.firstName ++ " " ++ request.lastName)
    initials := charAt0Upper request.firstName ++ charAt0Upper request.lastName
    lineage := inferLineage_ request.lastName
    h0 := createDeterministicRandom_ seed
    seed := seed }

/-! ## Recipe blueprints and the ambient current date -/

/-- The recipe blueprint shared by the five generators and the remote
override after normalization. -/
structure RecipeBlueprint where
  drinkName : String
  reason : String
  ingredients : List String
  instructions : List String
  compatibility : String
deriving DecidableEq

/-- Model of the ambient JS Date object read by new Date(): its epoch
milliseconds, its 0-based month and its day of month. -/
structure JsDate where
  timeMs : Int
  month0 : Nat
  date : Nat
deriving DecidableEq

/-- Days from the civil epoch 1970-01-01 for a proleptic Gregorian date
(the standard era-based algorithm); day values beyond the month length
roll over exactly as the JS Date constructor does. -/
def daysFromCivil (year month day : Int) : Int :=
  let y := if month ≤ 2 then year - 1 else year
  let era := Int.fdiv y 400
  let yoe := y - era * 400
  let mp := Int.emod (month + 9) 12
  let doy := Int.fdiv (153 * mp + 2) 5 + day - 1
  let doe := yoe * 365 + Int.fdiv yoe 4 - Int.fdiv yoe 100 + doy
  era * 146097 + doe - 719468

/-- Epoch milliseconds of new Date(year, month minus 1, day), with the
local-time offset of the Apps Script host not modelled (it cancels in
every day-difference the program computes). -/
def mkDateMs (year month day : Nat) : Int :=
  86400000 * daysFromCivil (year : Int) (month : Int) (day : Int)

/-! ## The five generators -/

/-- The first-initial flavor table of generateAstrologicalElixir_. -/
def flavorProfiles : List (Char × String) := [
  ('A', "amber agave warmth"), ('B', "botanical brightness"),
  ('C', "citrus sparkle"), ('D', "dusky spice"),
  ('E', "effervescent elegance"), ('F', "forest herb whisper"),
  ('G', "ginger glow"), ('H', "honeyed harmony"),
  ('I', "icy intrigue"), ('J', "juicy jubilance"),
  ('K', "kaleidoscopic kick"), ('L', "lush luxe layers"),
  ('M', "midnight mystique"), ('N', "nectar nuance"),
  ('O', "opulent orange zest"), ('P', "plush petal softness"),
  ('Q', "quartz-clear crispness"), ('R', "radiant rouge"),
  ('S', "simmering sour starlight"), ('T', "twilight tonic"),
  ('U', "utopian umami"), ('V', "velvet verdant vibes"),
  ('W', "whispering woodland"), ('X', "xenial exotic energy"),
  ('Y', "yonder citrus yawn"), ('Z', "zenithal zest")]

/-- Model of generateAstrologicalElixir_.  PRNG draws happen in source
order: accent, garnish, the mixer subset, then the compatibility score. -/
def generateAstrologicalElixir_ (context : GenerationContext) : RecipeBlueprint :=
  let complexity := min 5 (max 3 ((context.lastName.length + 2) / 3))
  let baseSpirit := context.zodiac.signatureSpirit
  let pick1 := randomPick_ context.h0 context.zodiac.accentNotes
  let accent := pick1.1.getD "null"
  let pick2 := randomPick_ pick1.2 context.zodiac.garnishes
  let garnish := pick2.1.getD "null"
  let mixerOptions := ["sparkling tonic", "hibiscus tea", "charred pineapple juice",
    "lunar lychee nectar", "smoked maple water"]
  let sel := buildUniqueSelection_ pick2.2 mixerOptions ((complexity : Int) - 2)
  let mixers := sel.1
  let ingredients := [baseSpirit ++ " - 2 oz", accent ++ " liqueur - 0.75 oz"]
    ++ mixers.map (fun item => item ++ " - 1 oz") ++ [garnish ++ " for garnish"]
  let h4 := prngNext sel.2
  let compatibilityScore := jsRound (78 + ((h4 : ℚ) / (u32 : ℚ)) * 20)
  let reason := "The " ++ context.zodiac.sign ++ " constellation crowns you with " ++
    context.zodiac.element ++ " energy, so your elixir leans on " ++ baseSpirit ++ ". " ++
    "Your first initial invites " ++ ((flavorProfiles.lookup (headUpperChar context.firstName)).getD "stellar balance") ++
    ", while the length of the " ++ context.lastName ++ " lineage calls for " ++ toString complexity ++ " cosmic layers."
  let instructions := [
    "Stir the " ++ baseSpirit ++ " and " ++ accent ++ " with ice to honor your celestial patience.",
    "Cascade in " ++ joinStrings ", " mixers ++ " to echo the " ++ String.map Char.toLower context.zodiac.element ++ " element.",
    "Strain into a chilled coupe and float " ++ garnish ++ " as your guiding star."]
  { drinkName := context.zodiac.sign ++ " Starfall " ++ charAt0Upper context.firstName
    reason := reason
    ingredients := ingredients
    instructions := instructions
    compatibility := "Cosmic compatibility: " ++ toString compatibilityScore ++ "%" }

/-- The numerology-to-spirit table of generateNameNumerologyMixer_. -/
def spiritMap : List (Nat × String) := [
  (1, "crystal vodka"), (2, "botanical gin"), (3, "aged rum"),
  (4, "silky tequila"), (5, "smoked whisky"), (6, "velvet brandy"),
  (7, "sapphire gin"), (8, "amber bourbon"), (9, "elegant sake")]

/-- Model of generateNameNumerologyMixer_.  PRNG draws in source order:
the garnish pick, then the honey-syrup measure. -/
def generateNameNumerologyMixer_ (context : GenerationContext) : RecipeBlueprint :=
  let baseSpirit := (spiritMap.lookup context.numerology).getD "artisan vodka"
  let monthMeasure := (context.birthMonth % 3) + 1
  let dayMeasure := jsToFixed 1 ((context.birthDay : ℚ) / 10)
  let yearSeed := context.birthYear % 100
  let randomGarnishes := ["lucky starfruit twist", "destiny-dusted cocoa nibs",
    "fortune basil crown", "prophecy orchid petal"]
  let pick1 := randomPick_ context.h0 randomGarnishes
  let garnish := pick1.1.getD "null"
  let reason := "Numerology total " ++ toString context.numerology ++ " aligns you with " ++ baseSpirit ++
    ", while your birth timing sets the measures to " ++ toString monthMeasure ++ " oz of inspiration and " ++
    dayMeasure ++ " oz of intuition. A birth-year seed of " ++ toString yearSeed ++ " sprinkles mystical garnish."
  let h2 := prngNext pick1.2
  let ingredients := [
    baseSpirit ++ " - " ++ toString monthMeasure ++ " oz",
    "illuminated citrus cordial - " ++ dayMeasure ++ " oz",
    "moonlit jasmine tea - " ++ toString (1 + (yearSeed % 3)) ++ " dashes",
    "starlit honey syrup - " ++ jsToFixed 2 ((1 : ℚ) / 2 + ((h2 : ℚ) / (u32 : ℚ)) * ((1 : ℚ) / 2)) ++ " oz",
    garnish]
  let instructions := [
    "Combine " ++ baseSpirit ++ ", citrus cordial, and jasmine tea over sacred crushed ice.",
    "Whisper your life path number while stirring exactly " ++ toString (context.numerology + 2) ++ " times.",
    "Strain into a chilled highball and finish with " ++ garnish ++ "."]
  { drinkName := "Life Path Libation " ++ toString context.numerology
    reason := reason
    ingredients := ingredients
    instructions := instructions
    compatibility := "Destined harmony: infuse for " ++ toString ((context.birthDay % 5) + 2) ++ " breaths." }

/-- Model of generateBirthdayChronoCocktail_.  This generator reads the
ambient current date (new Date() in the source), passed here explicitly. -/
def generateBirthdayChronoCocktail_ (context : GenerationContext) (today : JsDate) : RecipeBlueprint :=
  let birthMs := mkDateMs context.birthYear context.birthMonth context.birthDay
  let ageInDays := Int.fdiv (today.timeMs - birthMs) 86400000
  let decadeSpiritMap := ["yuzu shochu", "silver tequila", "barrel-aged gin", "rye whisky",
    "caribbean rum", "cognac", "mezcal", "plum brandy", "aquavit", "amarone vermouth"]
  let spiritIndex := min ((decadeSpiritMap.length : Int) - 1) (Int.fdiv ageInDays 3650)
  let spirit := jsIndex decadeSpiritMap spiritIndex
  let mixerMap := ["crimson campari", "sakura syrup", "smoked pear nectar", "coconut water",
    "charcoal tonic", "cacao cold brew", "vermouth mist", "passionfruit cloud"]
  let pick1 := randomPick_ context.h0 mixerMap
  let mixer := pick1.1.getD "null"
  let mutationIndex := (today.month0 + 1 + today.date) % mixerMap.length
  let mutation := mixerMap.getD mutationIndex "undefined"
  let initialsFlavor := buildInitialsFlavor_ context.initials
  let reason := "A lifetime of " ++ toString ageInDays ++ " days seeds this chrono-cocktail. Your decade spirit is " ++
    spirit ++ ", initials spark " ++ initialsFlavor ++ ", and today" ++ apos ++
    "s temporal mutation invites a swap to " ++ mutation ++ "."
  let ingredients := [
    spirit ++ " - 1.75 oz",
    mixer ++ " - 1 oz",
    mutation ++ " - 0.5 oz (rebirth twist)",
    "temporal bitters - " ++ toString ((context.birthDay % 4) + 1) ++ " dashes",
    "evolving citrus zest mist"]
  let instructions := [
    "Shake spirits and mixers with glacial cubes to honor the days gone by.",
    "Double strain into a chilled rocks glass over a single sphere of ice.",
    "Express the evolving zest and announce the rebirth variation aloud."]
  { drinkName := "Chrono Cascade " ++ context.initials
    reason := reason
    ingredients := ingredients
    instructions := instructions
    compatibility := "Evolves again in " ++ toString ((context.birthMonth * context.birthDay) % 9 + 1) ++ " days." }

/-- The seasonal ingredient table of generatePersonalizedPalateOracle_. -/
def seasonalIngredients : List (String × List String) := [
  ("winter", ["frosted rosemary", "candied cranberry", "smoked vanilla"]),
  ("spring", ["green strawberry", "basil blossom", "matcha honey"]),
  ("summer", ["grilled mango", "coconut foam", "tamarind breeze"]),
  ("autumn", ["caramelized fig", "sage syrup", "pecan spice dust"])]

/-- Model of generatePersonalizedPalateOracle_.  PRNG draws in source
order: archetype, base spirit, pairing. -/
def generatePersonalizedPalateOracle_ (context : GenerationContext) : RecipeBlueprint :=
  let archetypes := ["bold", "silken", "herbaceous", "radiant", "smoky", "effervescent"]
  let pick1 := randomPick_ context.h0 archetypes
  let archetype := pick1.1.getD "null"
  let season := inferBirthSeason_ context.birthMonth
  let ingredientSet := (seasonalIngredients.lookup season).getD []
  let baseSpirits := ["white rum", "aged cachaça", "botanical aquavit", "citrus gin", "rice vodka"]
  let pick2 := randomPick_ pick1.2 baseSpirits
  let baseSpirit := pick2.1.getD "null"
  let pick3 := randomPick_ pick2.2 ["saffron brittle", "sea-salt dark chocolate", "citrus madeleine"]
  let pairing := pick3.1.getD "null"
  let reason := "Oracle reading: the cadence of " ++ context.firstName ++ " " ++ context.lastName ++
    " resonates as " ++ archetype ++ ". Birth season " ++ season ++ " blesses you with " ++
    joinStrings ", " ingredientSet ++ " and the name" ++ apos ++ "s rhythm chooses " ++ baseSpirit ++ "."
  let ingredients := [
    baseSpirit ++ " - 2 oz",
    ingredientSet.getD 0 "undefined" ++ " puree - 1 oz",
    ingredientSet.getD 1 "undefined" ++ " cordial - 0.5 oz",
    ingredientSet.getD 2 "undefined" ++ " tincture - 3 drops",
    "oracle foam - 1 scoop"]
  let instructions := [
    "Dry shake all ingredients to awaken the oracle foam.",
    "Add ice, shake vigorously, and strain into a stemmed glass.",
    "Serve alongside " ++ pairing ++ " for harmonious alignment."]
  { drinkName := "Oracle Reverie " ++ charAt0Upper season
    reason := reason
    ingredients := ingredients
    instructions := instructions
    compatibility := "Oracle pairing: " ++ pairing }

/-- The lineage-to-base table of generateDynasticDrinkDynasty_ (each
entry is the two-element array of the source). -/
def lineageBase : List (String × (String × String)) := [
  ("italian", ("amaro", "lambrusco reduction")),
  ("irish", ("triple-distilled whiskey", "heather honey")),
  ("spanish", ("oloroso sherry", "blood orange cordial")),
  ("japanese", ("ume plum sake", "yuzu kosho syrup")),
  ("french", ("cognac", "lavender syrup")),
  ("nordic", ("aquavit", "cloudberry jam"))]

/-- Model of generateDynasticDrinkDynasty_. -/
def generateDynasticDrinkDynasty_ (context : GenerationContext) : RecipeBlueprint :=
  let baseSet := (lineageBase.lookup context.lineage).getD ("heritage rum", "spiced panela")
  let ratioSeed := (context.birthMonth * 100 + context.birthDay) % 10
  let spiceLevel := ratioSeed % 5
  let evolutionOptions := ["Ancestor Edition", "Sibling Spin", "Heirloom Remix", "Legacy Lift"]
  let pick1 := randomPick_ context.h0 evolutionOptions
  let evolution := pick1.1.getD "null"
  let reason := "Family lineage detected as " ++ context.lineage ++ ", guiding the base to " ++ baseSet.1 ++
    ". Birthday digits craft ratio seed " ++ toString ratioSeed ++ " and spice level " ++ toString spiceLevel ++
    ", birthing the " ++ evolution ++ " branch."
  let ingredients := [
    baseSet.1 ++ " - " ++ jsToFixed 2 ((3 : ℚ) / 2 + (spiceLevel : ℚ) * ((1 : ℚ) / 10)) ++ " oz",
    baseSet.2 ++ " - " ++ jsToFixed 2 (1 + (spiceLevel : ℚ) * ((1 : ℚ) / 20)) ++ " oz",
    "ancestral spice tincture - " ++ toString spiceLevel ++ " drops",
    "heritage citrus oil mist",
    "lineage bitters - " ++ toString ((ratioSeed % 4) + 1) ++ " shakes"]
  let instructions := [
    "Build the dynasty layers over an engraved ice column.",
    "Stir clockwise for the elders, counter-clockwise for new heirs.",
    "Crown with heritage citrus oil and pronounce the " ++ evolution ++ " title."]
  { drinkName := context.lastName ++ " Dynasty Draught"
    reason := reason
    ingredients := ingredients
    instructions := instructions
    compatibility := "Spice lineage: level " ++ toString spiceLevel }

/-- Model of getGeneratorByKey_.  All generators are given the ambient
current date; only the chrono generator reads it. -/
def getGeneratorByKey_ (key : String) : Except String (GenerationContext → JsDate → RecipeBlueprint) :=
  if key = "astro" then .ok (fun context _ => generateAstrologicalElixir_ context)
  else if key = "numerology" then .ok (fun context _ => generateNameNumerologyMixer_ context)
  else if key = "chrono" then .ok (fun context today => generateBirthdayChronoCocktail_ context today)
  else if key = "oracle" then .ok (fun context _ => generatePersonalizedPalateOracle_ context)
  else if key = "dynasty" then .ok (fun context _ => generateDynasticDrinkDynasty_ context)
  else .error ("Unsupported generator key: " ++ key)

/-! ## Request validation (sanitizeGenerationRequest_) -/

/-- The raw generation payload after the JS Number coercions: the birth
fields are the numbers produced by Number(...), modelled as rationals so
that the integrality check of Number.isInteger is expressible; the name
and key fields are the string coercions. -/
structure GenerationPayload where
  generatorKey : String
  birthMonth : ℚ
  birthDay : ℚ
  birthYear : ℚ
  firstName : String
  lastName : String
deriving DecidableEq

/-- Model of JS Number.isInteger on the representable values. -/
def isIntQ (q : ℚ) : Bool := q.den == 1

/-- Model of sanitizeGenerationRequest_.  The ambient current year of
new Date().getFullYear() is an explicit parameter; a missing payload is
the none case.  The generator-key check reproduces the JS bracket
lookup on the frozen label object, which consults Object.prototype
after the own properties, so inherited keys such as toString pass it. -/
def sanitizeGenerationRequest_ (payload : Option GenerationPayload) (currentYear : ℚ) :
    Except String GenerationRequest :=
  match payload with
  | none => .error "Generation payload is missing."
  | some payload =>
    let generatorKey := jsTrim payload.generatorKey
    if generatorLabelsTruthy generatorKey = false then
      .error "An unsupported generator was selected."
    else if ¬ isIntQ payload.birthMonth ∨ payload.birthMonth < 1 ∨ 12 < payload.birthMonth then
      .error "Birth month must be an integer between 1 and 12."
    else if ¬ isIntQ payload.birthDay ∨ payload.birthDay < 1 ∨ 31 < payload.birthDay then
      .error "Birth day must be an integer between 1 and 31."
    else if ¬ isIntQ payload.birthYear ∨ payload.birthYear < 1900 ∨ currentYear < payload.birthYear then
      .error "Birth year is invalid or not provided."
    else
      let firstName := jsTrim payload.firstName
      let lastName := jsTrim payload.lastName
      if firstName = "" ∨ lastName = "" then
        .error "First name and last name are required for drink generation."
      else
        .ok { generatorKey := generatorKey
              birthMonth := payload.birthMonth.num.toNat
              birthDay := payload.birthDay.num.toNat
              birthYear := payload.birthYear.num.toNat
              firstName := firstName
              lastName := lastName }

/-! ## JSON values and the remote override -/

/-- JSON values as produced by JSON.parse (no undefined, no functions).
Object payloads list the own properties in order. -/
inductive JsonValue where
  | jnull : JsonValue
  | jbool : Bool → JsonValue
  | jnum : Int → JsonValue
  | jstr : String → JsonValue
  | jarr : List JsonValue → JsonValue
  | jobj : List (String × JsonValue) → JsonValue

/-- JS truthiness of a JSON value. -/
def jsTruthy : JsonValue → Bool
  | .jnull => false
  | .jbool b => b
  | .jnum n => n != 0
  | .jstr s => s != ""
  | .jarr _ => true
  | .jobj _ => true

mutual

/-- Model of the JS String(...) coercion on JSON values; plain objects
print as the object placeholder, arrays join their elements with commas
(null elements joining as the empty string). -/
def jsToString : JsonValue → String
  | .jnull => "null"
  | .jbool true => "true"
  | .jbool false => "false"
  | .jnum n => toString n
  | .jstr s => s
  | .jobj _ => "[object Object]"
  | .jarr xs => joinStrings "," (jsJoinParts xs)

/-- Element strings of the JS Array.prototype.join coercion. -/
def jsJoinParts : List JsonValue → List String
  | [] => []
  | .jnull :: vs => "" :: jsJoinParts vs
  | v :: vs => jsToString v :: jsJoinParts vs

end

/-- Property access on a JSON value: own properties of an object, and
undefined (none) on every other value. -/
def jsonGetField : JsonValue → String → Option JsonValue
  | .jobj fields, k => fields.lookup k
  | _, _ => none

/-- Model of normalizeOpenAiBlueprint_: the three string fields keep the
trimmed string coercion of a truthy raw field and fall back to their
defaults otherwise; the two list fields keep the element-wise trimmed
coercion of a raw array field and fall back to the empty list. -/
def normalizeOpenAiBlueprint_ (blueprint : JsonValue) (context : GenerationContext) : RecipeBlueprint :=
  let strField := fun (k deflt : String) =>
    match jsonGetField blueprint k with
    | some v => if jsTruthy v then jsTrim (jsToString v) else deflt
    | none => deflt
  let arrField := fun (k : String) =>
    match jsonGetField blueprint k with
    | some (.jarr xs) => xs.map (fun v => jsTrim (jsToString v))
    | _ => []
  { drinkName := strField "drinkName" (context.firstName ++ " Signature Sip")
    reason := strField "reason" "A bespoke creation blending celestial and personal motifs."
    ingredients := arrField "ingredients"
    instructions := arrField "instructions"
    compatibility := strField "compatibility" "Tailored compatibility insight unavailable." }

/-- The HTTP response of the completion endpoint as seen by the script:
status code and body text. -/
structure HttpResponse where
  status : Int
  body : String

/-- Model of generateDrinkWithOpenAI_ after the fetch: every JS throw is
an error result.  JSON.parse is an explicit parameter (a fixed pure
parsing function); its argument is string-coerced as in JS. -/
def generateDrinkWithOpenAI_ (request : GenerationRequest) (context : GenerationContext)
    (parse : String → Option JsonValue) (resp : HttpResponse) : Except String RecipeBlueprint :=
  if resp.status < 200 ∨ 300 ≤ resp.status then
    .error ("OpenAI API returned status " ++ toString resp.status ++ ": " ++ resp.body)
  else
    match parse resp.body with
    | none => .error "Failed to parse OpenAI response JSON."
    | some responseObject =>
      match jsonGetField responseObject "choices" with
      | some (.jarr (choice0 :: _)) =>
        match (jsonGetField choice0 "message").bind (fun m => jsonGetField m "content") with
        | some content =>
          if jsTruthy content then
            match parse (jsToString content) with
            | none => .error "OpenAI message content is not valid JSON."
            | some parsed => .ok (normalizeOpenAiBlueprint_ parsed context)
          else .error "OpenAI response missing message content."
        | none => .error "OpenAI response missing message content."
      | _ => .error "OpenAI response missing choices array."

/-! ## Persistence (rows, persistBlueprint_, getStoredDrinks, registerVote) -/

/-- One data row of the GeneratedDrinks sheet, in header order. -/
structure DrinkRow where
  drinkId : String
  timestamp : String
  generatorKey : String
  generatorLabel : String
  firstName : String
  lastName : String
  birthMonth : Nat
  birthDay : Nat
  birthYear : Nat
  reason : String
  drinkName : String
  ingredientsCell : String
  instructionsCell : String
  compatibility : String
  voteCount : ℚ
deriving DecidableEq

/-- One row of the VoteAudit sheet. -/
structure VoteAuditRow where
  timestamp : String
  drinkId : String
  previousVotes : ℚ
  newVotes : ℚ
  action : String
deriving DecidableEq

/-- The backing spreadsheet: the primary data rows and the audit rows,
in insertion order. -/
structure Store where
  primary : List DrinkRow
  votes : List VoteAuditRow
deriving DecidableEq

/-- The record generateDrink returns to the caller. -/
structure PersistedDrink where
  drinkId : String
  drinkName : String
  reason : String
  ingredients : List String
  instructions : List String
  compatibility : String
  generatorLabel : String
  voteCount : ℚ
deriving DecidableEq

/-- The separator the source joins recipe line items with. -/
def bulletSep : String := " " ++ String.singleton bulletChar ++ " "

/-- Model of persistBlueprint_: append the new row (vote count zero) and
return the enriched record.  The generated UUID and ISO timestamp are
explicit parameters. -/
def persistBlueprint_ (store : Store) (request : GenerationRequest) (blueprint : RecipeBlueprint)
    (uuid timestamp : String) : Store × PersistedDrink :=
  let ingredientsCell := joinStrings bulletSep blueprint.ingredients
  let instructionsCell := joinStrings bulletSep blueprint.instructions
  let row : DrinkRow :=
    { drinkId := uuid
      timestamp := timestamp
      generatorKey := request.generatorKey
      generatorLabel := (GENERATOR_LABELS.lookup request.generatorKey).getD "undefined"
      firstName := request.firstName
      lastName := request.lastName
      birthMonth := request.birthMonth
      birthDay := request.birthDay
      birthYear := request.birthYear
      reason := blueprint.reason
      drinkName := blueprint.drinkName
      ingredientsCell := ingredientsCell
      instructionsCell := instructionsCell
      compatibility := blueprint.compatibility
      voteCount := 0 }
  ({ primary := store.primary ++ [row], votes := store.votes },
   { drinkId := uuid
     drinkName := blueprint.drinkName
     reason := blueprint.reason
     ingredients := blueprint.ingredients
     instructions := blueprint.instructions
     compatibility := blueprint.compatibility
     generatorLabel := (GENERATOR_LABELS.lookup request.generatorKey).getD "undefined"
     voteCount := 0 })

/-- A catalogue record of getStoredDrinks. -/
structure StoredDrinkRecord where
  drinkId : String
  timestamp : String
  generatorKey : String
  generatorLabel : String
  firstName : String
  lastName : String
  birthMonth : Nat
  birthDay : Nat
  birthYear : Nat
  reason : String
  drinkName : String
  ingredients : List String
  instructions : List String
  compatibility : String
  voteCount : ℚ
deriving DecidableEq

/-- Reconstruction of a line-item list from a stored cell: an empty cell
is falsy and yields the empty list, otherwise the cell is split on the
bullet character and every field trimmed. -/
def readBulletCell (cell : String) : List String :=
  if cell = "" then [] else (splitOnCharStr bulletChar cell).map jsTrim

/-- Model of getStoredDrinks: map every stored row to its catalogue
record. -/
def getStoredDrinks (store : Store) : List StoredDrinkRecord :=
  store.primary.map (fun row =>
    { drinkId := row.drinkId
      timestamp := row.timestamp
      generatorKey := row.generatorKey
      generatorLabel := row.generatorLabel
      firstName := row.firstName
      lastName := row.lastName
      birthMonth := row.birthMonth
      birthDay := row.birthDay
      birthYear := row.birthYear
      reason := row.reason
      drinkName := row.drinkName
      ingredients := readBulletCell row.ingredientsCell
      instructions := readBulletCell row.instructionsCell
      compatibility := row.compatibility
      voteCount := row.voteCount })

/-- Row scan and update of registerVote: find the first row with the
requested identifier, set its vote count to one more, and report the
previous and new counts. -/
def registerVoteRows (id : String) : List DrinkRow → Option (List DrinkRow × ℚ × ℚ)
  | [] => none
  | row :: rest =>
    if row.drinkId = id then
      some ({ row with voteCount := row.voteCount + 1 } :: rest, row.voteCount, row.voteCount + 1)
    else
      match registerVoteRows id rest with
      | none => none
      | some (rest2, prev, new) => some (row :: rest2, prev, new)

/-- Model of registerVote: an empty identifier throws the
identifier-required error; when the catalogue holds no data rows, the
source reads getRange(2, 1, Math.max(lastRow - 1, 0), 15) with zero
rows, which the host Sheets API rejects — modelled as the range error
string; an unmatched identifier throws the not-found error (all three
error paths leave the store untouched); otherwise the first matched row
is updated and an audit row appended.  The ambient timestamp of the
audit row is an explicit parameter. -/
def registerVote (store : Store) (drinkId : String) (nowIso : String) :
    Store × Except String (String × ℚ) :=
  if drinkId = "" then
    (store, .error "A valid drink identifier is required to register a vote.")
  else if store.primary = [] then
    (store, .error "The number of rows in the range must be at least 1.")
  else
    match registerVoteRows drinkId store.primary with
    | none => (store, .error "The requested drink could not be located.")
    | some (primary2, prev, new) =>
      ({ primary := primary2,
         votes := store.votes ++ [⟨nowIso, drinkId, prev, new, "increment"⟩] },
       .ok (drinkId, new))

/-! ## The generate boundary handler -/

/-- Model of generateDrink: sanitize, build the context, resolve the
generator, attempt the remote override when a key is configured (any
remote failure is swallowed), fall back to the deterministic generator,
then persist.  Ambient state (current year and date, script property
key, HTTP response, JSON parser, UUID and timestamp) is explicit. -/
def generateDrink (payload : Option GenerationPayload) (currentYear : ℚ) (today : JsDate)
    (openAiKey : Option String) (parse : String → Option JsonValue) (resp : HttpResponse)
    (uuid timestamp : String) (store : Store) : Except String (Store × PersistedDrink) :=
  match sanitizeGenerationRequest_ payload currentYear with
  | .error e => .error e
  | .ok request =>
    let context := buildGenerationContext_ request
    match getGeneratorByKey_ request.generatorKey with
    | .error e => .error e
    | .ok generator =>
      let remote : Option RecipeBlueprint :=
        match openAiKey with
        | none => none
        | some _ =>
          match generateDrinkWithOpenAI_ request context parse resp with
          | .ok b => some b
          | .error _ => none
      let blueprint := remote.getD (generator context today)
      .ok (persistBlueprint_ store request blueprint uuid timestamp)

/-! ## Theorems -/

theorem xor32_lt (a b : Nat) : xor32 a b < u32 :=
  Nat.mod_lt _ (by decide)

theorem prngNext_lt (h : Nat) : prngNext h < u32 :=
  xor32_lt _ _

/-- C8: a deterministic random generator created from a seed string is a
pure function of that seed: drawing any number of values twice yields
identical lists (the draw list is pointwise the indexed draw function of
the hidden state, with no other input), and every drawn value is an
unsigned 32-bit state divided by 2 to the 32, hence lies in the
half-open unit interval. -/
theorem c8_prng_deterministic_in_range (seed : String) (n : Nat) :
    drawValues (createDeterministicRandom_ seed) n = drawValues (createDeterministicRandom_ seed) n ∧
    drawValues (createDeterministicRandom_ seed) n = (List.range n).map (nthDraw (createDeterministicRandom_ seed)) ∧
    ∀ i : Nat, nthDraw (createDeterministicRandom_ seed) i =
        ((prngNext^[i + 1] (createDeterministicRandom_ seed) : Nat) : ℚ) / (u32 : ℚ) ∧
      0 ≤ nthDraw (createDeterministicRandom_ seed) i ∧
      nthDraw (createDeterministicRandom_ seed) i < 1 := by
  refine ⟨rfl, rfl, fun i => ⟨rfl, ?_, ?_⟩⟩
  · unfold nthDraw
    positivity
  · unfold nthDraw
    rw [div_lt_one (by norm_num [u32])]
    have hlt : prngNext^[i + 1] (createDeterministicRandom_ seed) < u32 := by
      rw [Function.iterate_succ_apply']
      exact prngNext_lt _
    exact_mod_cast hlt

theorem digitSumAux_congr : ∀ (f g n : Nat), n ≤ f → n ≤ g → digitSumAux f n = digitSumAux g n := by
  intro f
  induction f with
  | zero =>
    intro g n hf _
    interval_cases n
    cases g <;> rfl
  | succ f ih =>
    intro g n hf hg
    match n, g with
    | 0, 0 => rfl
    | 0, g + 1 => rfl
    | m + 1, g + 1 =>
      show ((m + 1) % 10) + digitSumAux f ((m + 1) / 10) = ((m + 1) % 10) + digitSumAux g ((m + 1) / 10)
      have hdiv : (m + 1) / 10 ≤ m := by
        have := Nat.div_lt_self (Nat.succ_pos m) (by norm_num : 1 < 10)
        omega
      rw [ih g ((m + 1) / 10) (by omega) (by omega)]

theorem digitSum_succ (m : Nat) : digitSum (m + 1) = (m + 1) % 10 + digitSum ((m + 1) / 10) := by
  have hdiv : (m + 1) / 10 ≤ m := by
    have := Nat.div_lt_self (Nat.succ_pos m) (by norm_num : 1 < 10)
    omega
  show ((m + 1) % 10) + digitSumAux m ((m + 1) / 10) = (m + 1) % 10 + digitSum ((m + 1) / 10)
  rw [digitSumAux_congr m ((m + 1) / 10) ((m + 1) / 10) hdiv le_rfl]
  rfl

theorem digitSum_le (n : Nat) : digitSum n ≤ n := by
  induction n using Nat.strong_induction_on with
  | _ n ih =>
    match n with
    | 0 => exact Nat.le_refl 0
    | m + 1 =>
      rw [digitSum_succ]
      have h1 : digitSum ((m + 1) / 10) ≤ (m + 1) / 10 :=
        ih _ (Nat.div_lt_self (Nat.succ_pos m) (by norm_num))
      have h2 := Nat.mod_add_div (m + 1) 10
      omega

theorem digitSum_lt (n : Nat) (hn : 10 ≤ n) : digitSum n < n := by
  match n, hn with
  | m + 1, hn =>
    rw [digitSum_succ]
    have h1 : digitSum ((m + 1) / 10) ≤ (m + 1) / 10 := digitSum_le _
    have h2 := Nat.mod_add_div (m + 1) 10
    have h3 : 1 ≤ (m + 1) / 10 := by
      rw [Nat.le_div_iff_mul_le (by norm_num)]
      omega
    omega

theorem digitSum_pos (n : Nat) (hn : 0 < n) : 0 < digitSum n := by
  induction n using Nat.strong_induction_on with
  | _ n ih =>
    match n with
    | m + 1 =>
      rw [digitSum_succ]
      rcases Nat.eq_zero_or_pos ((m + 1) % 10) with h | h
      · have h2 := Nat.mod_add_div (m + 1) 10
        have h3 : 0 < (m + 1) / 10 := by omega
        have := ih ((m + 1) / 10) (Nat.div_lt_self (Nat.succ_pos m) (by norm_num)) h3
        omega
      · omega

theorem reduceAux_le9 : ∀ (fuel t : Nat), t ≤ fuel → reduceAux fuel t ≤ 9 := by
  intro fuel
  induction fuel with
  | zero =>
    intro t ht
    interval_cases t
    exact Nat.zero_le 9
  | succ fuel ih =>
    intro t ht
    by_cases h : 9 < t
    · rw [show reduceAux (fuel + 1) t = reduceAux fuel (digitSum t) by simp [reduceAux, h]]
      exact ih _ (by have := digitSum_lt t (by omega); omega)
    · rw [show reduceAux (fuel + 1) t = t by simp [reduceAux, h]]
      omega

theorem reduceAux_pos : ∀ (fuel t : Nat), 1 ≤ t → 1 ≤ reduceAux fuel t := by
  intro fuel
  induction fuel with
  | zero => intro t ht; exact ht
  | succ fuel ih =>
    intro t ht
    by_cases h : 9 < t
    · rw [show reduceAux (fuel + 1) t = reduceAux fuel (digitSum t) by simp [reduceAux, h]]
      exact ih _ (digitSum_pos t (by omega))
    · rw [show reduceAux (fuel + 1) t = t by simp [reduceAux, h]]
      exact ht

theorem reduceAux_congr : ∀ (f g t : Nat), t ≤ f → t ≤ g → reduceAux f t = reduceAux g t := by
  intro f
  induction f with
  | zero =>
    intro g t hf _
    interval_cases t
    cases g with
    | zero => rfl
    | succ g => simp [reduceAux]
  | succ f ih =>
    intro g t hf hg
    cases g with
    | zero =>
      interval_cases t
      simp [reduceAux]
    | succ g =>
      by_cases h : 9 < t
      · rw [show reduceAux (f + 1) t = reduceAux f (digitSum t) by simp [reduceAux, h],
           show reduceAux (g + 1) t = reduceAux g (digitSum t) by simp [reduceAux, h]]
        have hd := digitSum_lt t (by omega)
        exact ih g (digitSum t) (by omega) (by omega)
      · rw [show reduceAux (f + 1) t = t by simp [reduceAux, h],
           show reduceAux (g + 1) t = t by simp [reduceAux, h]]

theorem reduceTotal_rec (t : Nat) :
    reduceTotal t = if 9 < t then reduceTotal (digitSum t) else t := by
  by_cases h : 9 < t
  · rw [if_pos h]
    match t, h with
    | s + 1, h =>
      show reduceAux (s + 1) (s + 1) = reduceTotal (digitSum (s + 1))
      rw [show reduceAux (s + 1) (s + 1) = reduceAux s (digitSum (s + 1)) by simp [reduceAux, h]]
      exact reduceAux_congr s (digitSum (s + 1)) (digitSum (s + 1))
        (by have := digitSum_lt (s + 1) (by omega); omega) le_rfl
  · rw [if_neg h]
    match t with
    | 0 => rfl
    | s + 1 =>
      show reduceAux (s + 1) (s + 1) = s + 1
      simp [reduceAux, h]

theorem letterTotal_pos (text : String) (h : numerologyLetters text ≠ []) :
    1 ≤ letterTotal text := by
  unfold letterTotal
  rcases hl : numerologyLetters text with _ | ⟨c, cs⟩
  · exact absurd hl h
  · have hc : c ∈ numerologyLetters text := by rw [hl]; exact List.mem_cons_self c cs
    have hprop := List.of_mem_filter hc
    have h65 : 65 ≤ c.toNat := by
      have := (Bool.and_eq_true _ _).mp hprop
      exact Nat.le_of_ble_eq_true (by simpa using this.1)
    simp only [List.map_cons, List.sum_cons]
    omega

/-- C6: for a name containing at least one ASCII letter, the numerology
value is the repeated decimal digit-sum reduction of the sum of the
1-indexed alphabet positions of the sanitized letters, lies between one
and nine, and is never produced by the final clamp; the name AB reduces
to three, and any name whose letter sum is exactly ten reduces to one. -/
theorem c6_numerology (text : String) :
    (numerologyLetters text ≠ [] →
      1 ≤ computeNumerologyValue_ text ∧ computeNumerologyValue_ text ≤ 9 ∧
      computeNumerologyValue_ text = reduceTotal (letterTotal text)) ∧
    (∀ t : Nat, reduceTotal t = if 9 < t then reduceTotal (digitSum t) else t) ∧
    letterTotal text = ((numerologyLetters text).map (fun c => c.toNat - 64)).sum ∧
    computeNumerologyValue_ "AB" = 3 ∧
    (letterTotal text = 10 → computeNumerologyValue_ text = 1) := by
  refine ⟨?_, reduceTotal_rec, rfl, by decide, ?_⟩
  · intro h
    have hpos : 1 ≤ reduceTotal (letterTotal text) :=
      reduceAux_pos _ _ (letterTotal_pos text h)
    have hle : reduceTotal (letterTotal text) ≤ 9 :=
      reduceAux_le9 _ _ le_rfl
    unfold computeNumerologyValue_
    omega
  · intro h
    unfold computeNumerologyValue_
    rw [h]
    decide

/-- Witness for C6 at the concrete name AB. -/
theorem c6_numerology_witness :
    numerologyLetters "AB" ≠ [] ∧
    (1 ≤ computeNumerologyValue_ "AB" ∧ computeNumerologyValue_ "AB" ≤ 9 ∧
      computeNumerologyValue_ "AB" = reduceTotal (letterTotal "AB")) :=
  ⟨by decide, (c6_numerology "AB").1 (by decide)⟩

theorem getZodiacProfile_mem (month day : Nat) : getZodiacProfile_ month day ∈ zodiacProfiles := by
  show (match zodiacProfiles.find? (fun p => zodiacMatches p (dateValue month day)) with
    | some p => p
    | none => zodiacProfiles.headI) ∈ zodiacProfiles
  rcases hf : zodiacProfiles.find? (fun p => zodiacMatches p (dateValue month day)) with _ | p
  · decide
  · exact List.mem_of_find?_eq_some hf

/-- C7: the zodiac lookup sends December 25 to Capricorn, June 21 to
Cancer, December 21 to Sagittarius and December 22 to Capricorn; every
table entry is returned on both of its stated boundary dates (the edges
are inclusive, and the Capricorn interval wraps the year boundary), and
every month-day input in range returns a member of the 12-entry table. -/
theorem c7_zodiac :
    (getZodiacProfile_ 12 25).sign = "Capricorn" ∧
    (getZodiacProfile_ 6 21).sign = "Cancer" ∧
    (getZodiacProfile_ 12 21).sign = "Sagittarius" ∧
    (getZodiacProfile_ 12 22).sign = "Capricorn" ∧
    (∀ p ∈ zodiacProfiles,
      getZodiacProfile_ p.startMonth p.startDay = p ∧ getZodiacProfile_ p.endMonth p.endDay = p) ∧
    (∀ month day : Nat, 1 ≤ month → month ≤ 12 → 1 ≤ day → day ≤ 31 →
      getZodiacProfile_ month day ∈ zodiacProfiles) := by
  refine ⟨by decide, by decide, by decide, by decide, by decide, ?_⟩
  intro month day _ _ _ _
  exact getZodiacProfile_mem month day

/-- Witness for C7: a concrete in-range date is sent to a table member,
and the Capricorn entry owns both of its boundary dates. -/
theorem c7_zodiac_witness :
    getZodiacProfile_ 3 15 ∈ zodiacProfiles ∧
    (getZodiacProfile_ 12 22 = zodiacProfiles.headI ∧ getZodiacProfile_ 1 19 = zodiacProfiles.headI) := by
  refine ⟨c7_zodiac.2.2.2.2.2 3 15 (by decide) (by decide) (by decide) (by decide), ?_⟩
  have h := c7_zodiac.2.2.2.2.1 zodiacProfiles.headI (by decide)
  exact ⟨h.1, h.2⟩

theorem cons_eraseIdx_perm {α : Type} :
    ∀ (l : List α) (i : Nat) (x : α), l.get? i = some x → (x :: l.eraseIdx i).Perm l := by
  intro l
  induction l with
  | nil => intro i x h; simp at h
  | cons a t ih =>
    intro i x h
    cases i with
    | zero =>
      simp only [List.get?] at h
      cases h
      simp [List.eraseIdx]
    | succ i =>
      have h2 : t.get? i = some x := by simpa using h
      show (x :: a :: t.eraseIdx i).Perm (a :: t)
      exact (List.Perm.swap a x _).trans ((ih i x h2).cons a)

theorem draw_idx_lt (h : Nat) {len : Nat} (hl : 0 < len) : prngNext h * len / u32 < len := by
  rw [Nat.div_lt_iff_lt_mul (by decide : 0 < u32)]
  calc prngNext h * len < u32 * len := mul_lt_mul_of_pos_right (prngNext_lt h) hl
  _ = len * u32 := Nat.mul_comm _ _

theorem buildUniqueLoop_spec {α : Type} (count : Int) :
    ∀ (fuel h : Nat) (available selection : List α), available.length ≤ fuel →
    ∃ picked rest,
      (buildUniqueLoop count fuel h available selection).1 = selection ++ picked ∧
      (picked ++ rest).Perm available ∧
      (selection ++ picked).length =
        max selection.length (min count.toNat (selection.length + available.length)) := by
  intro fuel
  induction fuel with
  | zero =>
    intro h avail sel hle
    have hav : avail = [] := List.eq_nil_of_length_eq_zero (Nat.le_zero.mp hle)
    subst hav
    refine ⟨[], [], by simp [buildUniqueLoop], by simp, ?_⟩
    simp only [List.append_nil, List.length_nil, Nat.add_zero]
    omega
  | succ fuel ih =>
    intro h avail sel hle
    by_cases hc : (sel.length : Int) < count ∧ 0 < avail.length
    · have hidx : prngNext h * avail.length / u32 < avail.length := draw_idx_lt h hc.2
      obtain ⟨x, hx⟩ : ∃ x, avail.get? (prngNext h * avail.length / u32) = some x :=
        ⟨avail.get ⟨_, hidx⟩, List.get?_eq_get hidx⟩
      have hstep : buildUniqueLoop count (fuel + 1) h avail sel =
          buildUniqueLoop count fuel (prngNext h)
            (avail.eraseIdx (prngNext h * avail.length / u32)) (sel ++ [x]) := by
        simp only [buildUniqueLoop, if_pos hc, hx]
      have hperm := cons_eraseIdx_perm avail _ x hx
      have hlen : (avail.eraseIdx (prngNext h * avail.length / u32)).length + 1 = avail.length := by
        have := hperm.length_eq
        simpa using this
      obtain ⟨picked, rest, h1, h2, h3⟩ := ih (prngNext h)
        (avail.eraseIdx (prngNext h * avail.length / u32)) (sel ++ [x]) (by omega)
      refine ⟨x :: picked, rest, ?_, ?_, ?_⟩
      · rw [hstep, h1]
        simp
      · have hp1 : ((x :: picked) ++ rest).Perm
            (x :: avail.eraseIdx (prngNext h * avail.length / u32)) := h2.cons x
        exact hp1.trans hperm
      · have hlen2 := h3
        simp only [List.length_append, List.length_cons, List.length_singleton,
          List.length_nil] at hlen2 ⊢
        have hcnt := hc.1
        omega
    · have hstep : buildUniqueLoop count (fuel + 1) h avail sel = (sel, h) := by
        simp only [buildUniqueLoop, if_neg hc]
      refine ⟨[], avail, by rw [hstep]; simp, by simp, ?_⟩
      simp only [List.append_nil]
      rcases Decidable.not_and_iff_or_not.mp hc with hcnt | hpos
      · have : count ≤ (sel.length : Int) := by omega
        omega
      · have : avail.length = 0 := by omega
        omega

/-- C9: buildUniqueSelection_ returns a selection of length exactly the
minimum of the clamped requested count and the pool size; the selection
has no duplicates whenever the option pool has none; a nonpositive count
yields the empty selection; and a count at least the pool size yields a
permutation of the whole pool. -/
theorem c9_buildUniqueSelection {α : Type} (h : Nat) (options : List α) (count : Int) :
    ((count.toNat : Int) = max count 0 ∧
      (buildUniqueSelection_ h options count).1.length = min count.toNat options.length) ∧
    (options.Nodup → (buildUniqueSelection_ h options count).1.Nodup) ∧
    (count ≤ 0 → (buildUniqueSelection_ h options count).1 = []) ∧
    ((options.length : Int) ≤ count → (buildUniqueSelection_ h options count).1.Perm options) := by
  obtain ⟨picked, rest, h1, h2, h3⟩ :=
    buildUniqueLoop_spec count options.length h options [] le_rfl
  have hres : (buildUniqueSelection_ h options count).1 = picked := by
    unfold buildUniqueSelection_
    rw [h1]
    simp
  have hlen : (buildUniqueSelection_ h options count).1.length = min count.toNat options.length := by
    rw [hres]
    have := h3
    simp only [List.nil_append, List.length_nil, Nat.zero_add] at this
    omega
  refine ⟨⟨by omega, hlen⟩, ?_, ?_, ?_⟩
  · intro hnd
    rw [hres]
    have hnd2 : (picked ++ rest).Nodup := (h2.nodup_iff).mpr hnd
    exact hnd2.of_append_left
  · intro hcnt
    have : (buildUniqueSelection_ h options count).1.length = 0 := by
      rw [hlen]
      omega
    exact List.eq_nil_of_length_eq_zero this
  · intro hcnt
    have hplen : picked.length = options.length := by
      rw [← hres, hlen]
      omega
    have hrest : rest = [] := by
      have := h2.length_eq
      simp only [List.length_append] at this
      have : rest.length = 0 := by omega
      exact List.eq_nil_of_length_eq_zero this
    rw [hres]
    have := h2
    rw [hrest, List.append_nil] at this
    exact this

/-- Witness for C9 on a concrete three-element pool: a count of two
yields a duplicate-free selection, a negative count yields the empty
selection, and a count of five yields a permutation of the pool. -/
theorem c9_buildUniqueSelection_witness :
    (buildUniqueSelection_ 0 (["a", "b", "c"] : List String) 2).1.Nodup ∧
    (buildUniqueSelection_ 0 (["a", "b", "c"] : List String) (-1)).1 = [] ∧
    (buildUniqueSelection_ 0 (["a", "b", "c"] : List String) 5).1.Perm ["a", "b", "c"] :=
  ⟨(c9_buildUniqueSelection 0 ["a", "b", "c"] 2).2.1 (by decide),
   (c9_buildUniqueSelection 0 ["a", "b", "c"] (-1)).2.2.1 (by decide),
   (c9_buildUniqueSelection 0 ["a", "b", "c"] 5).2.2.2 (by decide)⟩

/-- C1 counterexample: the chrono generator is not independent of
ambient state.  With one fixed context (built from fixed request
fields, hence a fixed seed), evaluating the generator under two
different current dates yields different blueprints, because the age in
days and the date-derived mutation index enter the output. -/
theorem c1_generator_counterexample :
    generateBirthdayChronoCocktail_
        (buildGenerationContext_ ⟨"chrono", 5, 15, 1990, "Ada", "Lovelace"⟩)
        ⟨mkDateMs 2026 10 11, 9, 11⟩ ≠
      generateBirthdayChronoCocktail_
        (buildGenerationContext_ ⟨"chrono", 5, 15, 1990, "Ada", "Lovelace"⟩)
        ⟨mkDateMs 2026 10 21, 9, 21⟩ := by
  decide

/-- C1 amended: for the four generator keys astro, numerology, oracle
and dynasty, the resolved generator is a pure function of the context
alone, so two invocations on contexts built from identical request
fields agree in every field regardless of the ambient current date; the
chrono generator additionally reads the current date and is reproducible
only at a fixed date. -/
theorem c1_generator_determinism (key : String)
    (hkey : key = "astro" ∨ key = "numerology" ∨ key = "oracle" ∨ key = "dynasty")
    (g : GenerationContext → JsDate → RecipeBlueprint)
    (hg : getGeneratorByKey_ key = .ok g)
    (context : GenerationContext) (t t2 : JsDate) :
    g context t = g context t2 := by
  rcases hkey with h | h | h | h <;> subst h <;>
    simp only [getGeneratorByKey_, if_pos, if_neg, reduceCtorEq, String.reduceEq,
      if_true, if_false, Except.ok.injEq, reduceIte] at hg <;>
    subst hg <;> rfl

/-- Witness for C1 amended at the dynasty key with two different current
dates. -/
theorem c1_generator_determinism_witness :
    (fun (context : GenerationContext) (_ : JsDate) => generateDynasticDrinkDynasty_ context)
        (buildGenerationContext_ ⟨"dynasty", 5, 15, 1990, "Ada", "Lovelace"⟩)
        ⟨mkDateMs 2026 10 11, 9, 11⟩ =
      (fun (context : GenerationContext) (_ : JsDate) => generateDynasticDrinkDynasty_ context)
        (buildGenerationContext_ ⟨"dynasty", 5, 15, 1990, "Ada", "Lovelace"⟩)
        ⟨mkDateMs 2026 10 21, 9, 21⟩ :=
  c1_generator_determinism "dynasty" (Or.inr (Or.inr (Or.inr rfl))) _ rfl
    (buildGenerationContext_ ⟨"dynasty", 5, 15, 1990, "Ada", "Lovelace"⟩)
    ⟨mkDateMs 2026 10 11, 9, 11⟩ ⟨mkDateMs 2026 10 21, 9, 21⟩

/-- C5 counterexample: the key check is the JS bracket lookup on the
label object, which consults Object.prototype, so the key toString —
not one of the five recognized keys — passes it: with month 13 the
reported error is the month message rather than the
unsupported-generator message the claim prescribes, and with valid
fields the payload sanitizes successfully (only generator dispatch
rejects it later). -/
theorem c5_validation_counterexample :
    sanitizeGenerationRequest_ (some ⟨"toString", 13, 4, 1991, "Ada", "Lovelace"⟩) 2026 =
      .error "Birth month must be an integer between 1 and 12." ∧
    sanitizeGenerationRequest_ (some ⟨"toString", 4, 4, 1991, "Ada", "Lovelace"⟩) 2026 =
      .ok ⟨"toString", 4, 4, 1991, "Ada", "Lovelace"⟩ ∧
    (GENERATOR_LABELS.lookup "toString").isNone = true ∧
    ("Birth month must be an integer between 1 and 12." : String) ≠
      "An unsupported generator was selected." ∧
    getGeneratorByKey_ "toString" = .error "Unsupported generator key: toString" :=
  ⟨rfl, rfl, by decide, by decide, rfl⟩

/-- C5 amended: request validation checks, in order: a generator key
whose bracket lookup on the label object is truthy — the five own
label keys, or any inherited Object.prototype property such as toString
or constructor, which therefore passes the key check — then integer
month in 1..12, integer day in 1..31, integer year between 1900 and the
current year, then nonempty trimmed names; each failure reports its own
message, the first violated constraint in that order wins, and a
payload passing all checks yields exactly the sanitized field values
(so an inherited-property key sanitizes successfully and is only
rejected later by generator dispatch).  Concrete instances: month 13,
day 0, year 1899, the unknown key bork with all other fields invalid
too, an all-blank first name, and a passing payload with padded
fields. -/
theorem c5_validation :
    (∀ (p : GenerationPayload) (y : ℚ),
        generatorLabelsTruthy (jsTrim p.generatorKey) = false →
        sanitizeGenerationRequest_ (some p) y = .error "An unsupported generator was selected.") ∧
    (∀ (p : GenerationPayload) (y : ℚ),
        generatorLabelsTruthy (jsTrim p.generatorKey) = true →
        (¬ isIntQ p.birthMonth = true ∨ p.birthMonth < 1 ∨ 12 < p.birthMonth) →
        sanitizeGenerationRequest_ (some p) y = .error "Birth month must be an integer between 1 and 12.") ∧
    (∀ (p : GenerationPayload) (y : ℚ),
        generatorLabelsTruthy (jsTrim p.generatorKey) = true →
        ¬ (¬ isIntQ p.birthMonth = true ∨ p.birthMonth < 1 ∨ 12 < p.birthMonth) →
        (¬ isIntQ p.birthDay = true ∨ p.birthDay < 1 ∨ 31 < p.birthDay) →
        sanitizeGenerationRequest_ (some p) y = .error "Birth day must be an integer between 1 and 31.") ∧
    (∀ (p : GenerationPayload) (y : ℚ),
        generatorLabelsTruthy (jsTrim p.generatorKey) = true →
        ¬ (¬ isIntQ p.birthMonth = true ∨ p.birthMonth < 1 ∨ 12 < p.birthMonth) →
        ¬ (¬ isIntQ p.birthDay = true ∨ p.birthDay < 1 ∨ 31 < p.birthDay) →
        (¬ isIntQ p.birthYear = true ∨ p.birthYear < 1900 ∨ y < p.birthYear) →
        sanitizeGenerationRequest_ (some p) y = .error "Birth year is invalid or not provided.") ∧
    (∀ (p : GenerationPayload) (y : ℚ),
        generatorLabelsTruthy (jsTrim p.generatorKey) = true →
        ¬ (¬ isIntQ p.birthMonth = true ∨ p.birthMonth < 1 ∨ 12 < p.birthMonth) →
        ¬ (¬ isIntQ p.birthDay = true ∨ p.birthDay < 1 ∨ 31 < p.birthDay) →
        ¬ (¬ isIntQ p.birthYear = true ∨ p.birthYear < 1900 ∨ y < p.birthYear) →
        (jsTrim p.firstName = "" ∨ jsTrim p.lastName = "") →
        sanitizeGenerationRequest_ (some p) y =
          .error "First name and last name are required for drink generation.") ∧
    (∀ (p : GenerationPayload) (y : ℚ),
        generatorLabelsTruthy (jsTrim p.generatorKey) = true →
        ¬ (¬ isIntQ p.birthMonth = true ∨ p.birthMonth < 1 ∨ 12 < p.birthMonth) →
        ¬ (¬ isIntQ p.birthDay = true ∨ p.birthDay < 1 ∨ 31 < p.birthDay) →
        ¬ (¬ isIntQ p.birthYear = true ∨ p.birthYear < 1900 ∨ y < p.birthYear) →
        ¬ (jsTrim p.firstName = "" ∨ jsTrim p.lastName = "") →
        sanitizeGenerationRequest_ (some p) y =
          .ok ⟨jsTrim p.generatorKey, p.birthMonth.num.toNat, p.birthDay.num.toNat,
               p.birthYear.num.toNat, jsTrim p.firstName, jsTrim p.lastName⟩) ∧
    (∀ y : ℚ, sanitizeGenerationRequest_ (some ⟨"astro", 13, 4, 1991, "Ada", "Lovelace"⟩) y =
        .error "Birth month must be an integer between 1 and 12.") ∧
    (∀ y : ℚ, sanitizeGenerationRequest_ (some ⟨"astro", 4, 0, 1991, "Ada", "Lovelace"⟩) y =
        .error "Birth day must be an integer between 1 and 31.") ∧
    (sanitizeGenerationRequest_ (some ⟨"astro", 4, 4, 1899, "Ada", "Lovelace"⟩) 2026 =
        .error "Birth year is invalid or not provided.") ∧
    (∀ y : ℚ, sanitizeGenerationRequest_ (some ⟨"bork", 13, 0, 1899, "", ""⟩) y =
        .error "An unsupported generator was selected.") ∧
    (sanitizeGenerationRequest_ (some ⟨"astro", 4, 4, 1991, "  ", "Lovelace"⟩) 2026 =
        .error "First name and last name are required for drink generation.") ∧
    (sanitizeGenerationRequest_ (some ⟨" astro ", 4, 4, 1991, " Ada ", " Lovelace "⟩) 2026 =
        .ok ⟨"astro", 4, 4, 1991, "Ada", "Lovelace"⟩) := by
  have hkey : ∀ (p : GenerationPayload) (y : ℚ),
      generatorLabelsTruthy (jsTrim p.generatorKey) = false →
      sanitizeGenerationRequest_ (some p) y = .error "An unsupported generator was selected." := by
    intro p y h
    simp only [sanitizeGenerationRequest_]
    rw [if_pos h]
  have hmonth : ∀ (p : GenerationPayload) (y : ℚ),
      generatorLabelsTruthy (jsTrim p.generatorKey) = true →
      (¬ isIntQ p.birthMonth = true ∨ p.birthMonth < 1 ∨ 12 < p.birthMonth) →
      sanitizeGenerationRequest_ (some p) y =
        .error "Birth month must be an integer between 1 and 12." := by
    intro p y hk hm
    simp only [sanitizeGenerationRequest_]
    rw [if_neg (by simp [hk]), if_pos hm]
  have hday : ∀ (p : GenerationPayload) (y : ℚ),
      generatorLabelsTruthy (jsTrim p.generatorKey) = true →
      ¬ (¬ isIntQ p.birthMonth = true ∨ p.birthMonth < 1 ∨ 12 < p.birthMonth) →
      (¬ isIntQ p.birthDay = true ∨ p.birthDay < 1 ∨ 31 < p.birthDay) →
      sanitizeGenerationRequest_ (some p) y =
        .error "Birth day must be an integer between 1 and 31." := by
    intro p y hk hm hd
    simp only [sanitizeGenerationRequest_]
    rw [if_neg (by simp [hk]), if_neg hm, if_pos hd]
  have hyear : ∀ (p : GenerationPayload) (y : ℚ),
      generatorLabelsTruthy (jsTrim p.generatorKey) = true →
      ¬ (¬ isIntQ p.birthMonth = true ∨ p.birthMonth < 1 ∨ 12 < p.birthMonth) →
      ¬ (¬ isIntQ p.birthDay = true ∨ p.birthDay < 1 ∨ 31 < p.birthDay) →
      (¬ isIntQ p.birthYear = true ∨ p.birthYear < 1900 ∨ y < p.birthYear) →
      sanitizeGenerationRequest_ (some p) y = .error "Birth year is invalid or not provided." := by
    intro p y hk hm hd hy
    simp only [sanitizeGenerationRequest_]
    rw [if_neg (by simp [hk]), if_neg hm, if_neg hd, if_pos hy]
  have hnames : ∀ (p : GenerationPayload) (y : ℚ),
      generatorLabelsTruthy (jsTrim p.generatorKey) = true →
      ¬ (¬ isIntQ p.birthMonth = true ∨ p.birthMonth < 1 ∨ 12 < p.birthMonth) →
      ¬ (¬ isIntQ p.birthDay = true ∨ p.birthDay < 1 ∨ 31 < p.birthDay) →
      ¬ (¬ isIntQ p.birthYear = true ∨ p.birthYear < 1900 ∨ y < p.birthYear) →
      (jsTrim p.firstName = "" ∨ jsTrim p.lastName = "") →
      sanitizeGenerationRequest_ (some p) y =
        .error "First name and last name are required for drink generation." := by
    intro p y hk hm hd hy hn
    simp only [sanitizeGenerationRequest_]
    rw [if_neg (by simp [hk]), if_neg hm, if_neg hd, if_neg hy, if_pos hn]
  have hok : ∀ (p : GenerationPayload) (y : ℚ),
      generatorLabelsTruthy (jsTrim p.generatorKey) = true →
      ¬ (¬ isIntQ p.birthMonth = true ∨ p.birthMonth < 1 ∨ 12 < p.birthMonth) →
      ¬ (¬ isIntQ p.birthDay = true ∨ p.birthDay < 1 ∨ 31 < p.birthDay) →
      ¬ (¬ isIntQ p.birthYear = true ∨ p.birthYear < 1900 ∨ y < p.birthYear) →
      ¬ (jsTrim p.firstName = "" ∨ jsTrim p.lastName = "") →
      sanitizeGenerationRequest_ (some p) y =
        .ok ⟨jsTrim p.generatorKey, p.birthMonth.num.toNat, p.birthDay.num.toNat,
             p.birthYear.num.toNat, jsTrim p.firstName, jsTrim p.lastName⟩ := by
    intro p y hk hm hd hy hn
    simp only [sanitizeGenerationRequest_]
    rw [if_neg (by simp [hk]), if_neg hm, if_neg hd, if_neg hy, if_neg hn]
  refine ⟨hkey, hmonth, hday, hyear, hnames, hok, ?_, ?_, ?_, ?_, ?_, ?_⟩
  · intro y
    exact hmonth _ y (by decide) (by norm_num)
  · intro y
    exact hday _ y (by decide) (by norm_num [isIntQ]) (by norm_num)
  · exact hyear _ 2026 (by decide) (by norm_num [isIntQ]) (by norm_num [isIntQ]) (by norm_num)
  · intro y
    exact hkey _ y (by decide)
  · exact hnames _ 2026 (by decide) (by norm_num [isIntQ]) (by norm_num [isIntQ])
      (by norm_num [isIntQ]) (by left; decide)
  · exact hok _ 2026 (by decide) (by norm_num [isIntQ]) (by norm_num [isIntQ])
      (by norm_num [isIntQ]) (by simp; decide)

/-- Witness for C5 at a non-integer month: thirteen and a half is
rejected with the month message. -/
theorem c5_validation_witness :
    sanitizeGenerationRequest_ (some ⟨"astro", (27 : ℚ) / 2, 4, 1991, "Ada", "Lovelace"⟩) 2026 =
      .error "Birth month must be an integer between 1 and 12." :=
  c5_validation.2.1 ⟨"astro", (27 : ℚ) / 2, 4, 1991, "Ada", "Lovelace"⟩ 2026
    (by decide) (by norm_num [isIntQ])

/-- C3 counterexample: normalization keys on JS truthiness, not on the
field being present and a string.  A raw object whose drinkName is the
empty string (present, and a string) is normalized to the context
default instead of the trimmed raw string the claim prescribes. -/
theorem c3_normalize_counterexample :
    (normalizeOpenAiBlueprint_ (JsonValue.jobj [("drinkName", JsonValue.jstr "")])
        (buildGenerationContext_ ⟨"astro", 4, 4, 1991, "Alice", "Smith"⟩)).drinkName =
      "Alice Signature Sip" ∧
    jsTrim (jsToString (JsonValue.jstr "")) = "" ∧
    ("Alice Signature Sip" : String) ≠ "" :=
  ⟨rfl, rfl, by decide⟩

/-- C3 amended: normalizeOpenAiBlueprint_ never fails; drinkName,
reason and compatibility are the trimmed string coercion of the raw
field when it is present and truthy (so a present non-string truthy
value is coerced, and a present empty string falls back), and the
deterministic default otherwise; ingredients and instructions are the
element-wise trimmed string coercion of the raw field when it is present
and an array, and the empty sequence otherwise — in particular a raw
object missing ingredients yields empty ingredients, never an error. -/
theorem c3_normalize (blueprint : JsonValue) (context : GenerationContext) :
    (∀ v, jsonGetField blueprint "drinkName" = some v → jsTruthy v = true →
        (normalizeOpenAiBlueprint_ blueprint context).drinkName = jsTrim (jsToString v)) ∧
    (∀ v, jsonGetField blueprint "drinkName" = some v → jsTruthy v = false →
        (normalizeOpenAiBlueprint_ blueprint context).drinkName = context.firstName ++ " Signature Sip") ∧
    (jsonGetField blueprint "drinkName" = none →
        (normalizeOpenAiBlueprint_ blueprint context).drinkName = context.firstName ++ " Signature Sip") ∧
    (∀ v, jsonGetField blueprint "reason" = some v → jsTruthy v = true →
        (normalizeOpenAiBlueprint_ blueprint context).reason = jsTrim (jsToString v)) ∧
    (∀ v, jsonGetField blueprint "reason" = some v → jsTruthy v = false →
        (normalizeOpenAiBlueprint_ blueprint context).reason =
          "A bespoke creation blending celestial and personal motifs.") ∧
    (jsonGetField blueprint "reason" = none →
        (normalizeOpenAiBlueprint_ blueprint context).reason =
          "A bespoke creation blending celestial and personal motifs.") ∧
    (∀ v, jsonGetField blueprint "compatibility" = some v → jsTruthy v = true →
        (normalizeOpenAiBlueprint_ blueprint context).compatibility = jsTrim (jsToString v)) ∧
    (∀ v, jsonGetField blueprint "compatibility" = some v → jsTruthy v = false →
        (normalizeOpenAiBlueprint_ blueprint context).compatibility =
          "Tailored compatibility insight unavailable.") ∧
    (jsonGetField blueprint "compatibility" = none →
        (normalizeOpenAiBlueprint_ blueprint context).compatibility =
          "Tailored compatibility insight unavailable.") ∧
    (∀ xs, jsonGetField blueprint "ingredients" = some (JsonValue.jarr xs) →
        (normalizeOpenAiBlueprint_ blueprint context).ingredients =
          xs.map (fun v => jsTrim (jsToString v))) ∧
    ((∀ xs, jsonGetField blueprint "ingredients" ≠ some (JsonValue.jarr xs)) →
        (normalizeOpenAiBlueprint_ blueprint context).ingredients = []) ∧
    (jsonGetField blueprint "ingredients" = none →
        (normalizeOpenAiBlueprint_ blueprint context).ingredients = []) ∧
    (∀ xs, jsonGetField blueprint "instructions" = some (JsonValue.jarr xs) →
        (normalizeOpenAiBlueprint_ blueprint context).instructions =
          xs.map (fun v => jsTrim (jsToString v))) ∧
    ((∀ xs, jsonGetField blueprint "instructions" ≠ some (JsonValue.jarr xs)) →
        (normalizeOpenAiBlueprint_ blueprint context).instructions = []) := by
  have hstr : ∀ (k deflt : String),
      (∀ v, jsonGetField blueprint k = some v → jsTruthy v = true →
        (match jsonGetField blueprint k with
         | some v => if jsTruthy v then jsTrim (jsToString v) else deflt
         | none => deflt) = jsTrim (jsToString v)) ∧
      (∀ v, jsonGetField blueprint k = some v → jsTruthy v = false →
        (match jsonGetField blueprint k with
         | some v => if jsTruthy v then jsTrim (jsToString v) else deflt
         | none => deflt) = deflt) ∧
      (jsonGetField blueprint k = none →
        (match jsonGetField blueprint k with
         | some v => if jsTruthy v then jsTrim (jsToString v) else deflt
         | none => deflt) = deflt) := by
    intro k deflt
    refine ⟨?_, ?_, ?_⟩
    · intro v hv ht
      rw [hv]
      simp [ht]
    · intro v hv ht
      rw [hv]
      simp [ht]
    · intro hv
      rw [hv]
  have harr : ∀ (k : String),
      (∀ xs, jsonGetField blueprint k = some (JsonValue.jarr xs) →
        (match jsonGetField blueprint k with
         | some (JsonValue.jarr xs) => xs.map (fun v => jsTrim (jsToString v))
         | _ => ([] : List String)) = xs.map (fun v => jsTrim (jsToString v))) ∧
      ((∀ xs, jsonGetField blueprint k ≠ some (JsonValue.jarr xs)) →
        (match jsonGetField blueprint k with
         | some (JsonValue.jarr xs) => xs.map (fun v => jsTrim (jsToString v))
         | _ => ([] : List String)) = []) := by
    intro k
    constructor
    · intro xs hv
      rw [hv]
    · intro hv
      rcases hk : jsonGetField blueprint k with _ | v
      · rfl
      · cases v with
        | jarr xs => exact absurd hk (hv xs)
        | jnull => rfl
        | jbool b => rfl
        | jnum n => rfl
        | jstr s => rfl
        | jobj fields => rfl
  refine ⟨(hstr "drinkName" _).1, (hstr "drinkName" _).2.1, (hstr "drinkName" _).2.2,
    (hstr "reason" _).1, (hstr "reason" _).2.1, (hstr "reason" _).2.2,
    (hstr "compatibility" _).1, (hstr "compatibility" _).2.1, (hstr "compatibility" _).2.2,
    (harr "ingredients").1, (harr "ingredients").2, ?_,
    (harr "instructions").1, (harr "instructions").2⟩
  intro hv
  exact (harr "ingredients").2 (fun xs h => by rw [h] at hv; cases hv)

/-- Witness for C3 amended: a raw object with a padded drinkName, a
numeric reason, and no ingredients key is normalized to the trimmed
coercions and the empty ingredient list. -/
theorem c3_normalize_witness :
    (normalizeOpenAiBlueprint_
        (JsonValue.jobj [("drinkName", JsonValue.jstr " Nebula Fizz "), ("reason", JsonValue.jnum 7)])
        (buildGenerationContext_ ⟨"astro", 4, 4, 1991, "Alice", "Smith"⟩)).drinkName = "Nebula Fizz" ∧
    (normalizeOpenAiBlueprint_
        (JsonValue.jobj [("drinkName", JsonValue.jstr " Nebula Fizz "), ("reason", JsonValue.jnum 7)])
        (buildGenerationContext_ ⟨"astro", 4, 4, 1991, "Alice", "Smith"⟩)).reason = "7" ∧
    (normalizeOpenAiBlueprint_
        (JsonValue.jobj [("drinkName", JsonValue.jstr " Nebula Fizz "), ("reason", JsonValue.jnum 7)])
        (buildGenerationContext_ ⟨"astro", 4, 4, 1991, "Alice", "Smith"⟩)).ingredients = [] := by
  refine ⟨?_, ?_, ?_⟩
  · have h := (c3_normalize
      (JsonValue.jobj [("drinkName", JsonValue.jstr " Nebula Fizz "), ("reason", JsonValue.jnum 7)])
      (buildGenerationContext_ ⟨"astro", 4, 4, 1991, "Alice", "Smith"⟩)).1
      (JsonValue.jstr " Nebula Fizz ") rfl (by decide)
    rw [h]
    rfl
  · have h := (c3_normalize
      (JsonValue.jobj [("drinkName", JsonValue.jstr " Nebula Fizz "), ("reason", JsonValue.jnum 7)])
      (buildGenerationContext_ ⟨"astro", 4, 4, 1991, "Alice", "Smith"⟩)).2.2.2.1
      (JsonValue.jnum 7) rfl (by decide)
    rw [h]
    rfl
  · exact (c3_normalize
      (JsonValue.jobj [("drinkName", JsonValue.jstr " Nebula Fizz "), ("reason", JsonValue.jnum 7)])
      (buildGenerationContext_ ⟨"astro", 4, 4, 1991, "Alice", "Smith"⟩)).2.2.2.2.2.2.2.2.2.2.2.1 rfl

/-- C4: every remote failure mode of generateDrinkWithOpenAI_ is an
error result — non-2xx status, unparseable body, missing nonempty
choices array, missing or falsy message content, and message content
that is not valid JSON — and generateDrink never propagates a remote
error: whenever the remote path fails, the returned record is the
persisted blueprint of the deterministic generator for the request. -/
theorem c4_remote_fallback :
    (∀ (request : GenerationRequest) (context : GenerationContext)
        (parse : String → Option JsonValue) (resp : HttpResponse),
        resp.status < 200 ∨ 300 ≤ resp.status →
        generateDrinkWithOpenAI_ request context parse resp =
          .error ("OpenAI API returned status " ++ toString resp.status ++ ": " ++ resp.body)) ∧
    (∀ request context parse (resp : HttpResponse),
        ¬ (resp.status < 200 ∨ 300 ≤ resp.status) → parse resp.body = none →
        generateDrinkWithOpenAI_ request context parse resp =
          .error "Failed to parse OpenAI response JSON.") ∧
    (∀ request context parse (resp : HttpResponse) obj,
        ¬ (resp.status < 200 ∨ 300 ≤ resp.status) → parse resp.body = some obj →
        (∀ c rest, jsonGetField obj "choices" ≠ some (JsonValue.jarr (c :: rest))) →
        generateDrinkWithOpenAI_ request context parse resp =
          .error "OpenAI response missing choices array.") ∧
    (∀ request context parse (resp : HttpResponse) obj c rest,
        ¬ (resp.status < 200 ∨ 300 ≤ resp.status) → parse resp.body = some obj →
        jsonGetField obj "choices" = some (JsonValue.jarr (c :: rest)) →
        (∀ v, (jsonGetField c "message").bind (fun m => jsonGetField m "content") = some v →
          jsTruthy v = false) →
        generateDrinkWithOpenAI_ request context parse resp =
          .error "OpenAI response missing message content.") ∧
    (∀ request context parse (resp : HttpResponse) obj c rest v,
        ¬ (resp.status < 200 ∨ 300 ≤ resp.status) → parse resp.body = some obj →
        jsonGetField obj "choices" = some (JsonValue.jarr (c :: rest)) →
        (jsonGetField c "message").bind (fun m => jsonGetField m "content") = some v →
        jsTruthy v = true → parse (jsToString v) = none →
        generateDrinkWithOpenAI_ request context parse resp =
          .error "OpenAI message content is not valid JSON.") ∧
    (∀ (payload : Option GenerationPayload) (y : ℚ) (today : JsDate) (key : String)
        (parse : String → Option JsonValue) (resp : HttpResponse) (uuid ts : String)
        (store : Store) (request : GenerationRequest)
        (g : GenerationContext → JsDate → RecipeBlueprint) (e : String),
        sanitizeGenerationRequest_ payload y = .ok request →
        getGeneratorByKey_ request.generatorKey = .ok g →
        generateDrinkWithOpenAI_ request (buildGenerationContext_ request) parse resp = .error e →
        generateDrink payload y today (some key) parse resp uuid ts store =
          .ok (persistBlueprint_ store request (g (buildGenerationContext_ request) today) uuid ts)) := by
  refine ⟨?_, ?_, ?_, ?_, ?_, ?_⟩
  · intro request context parse resp hstat
    simp only [generateDrinkWithOpenAI_]
    rw [if_pos hstat]
  · intro request context parse resp hstat hbody
    simp only [generateDrinkWithOpenAI_]
    rw [if_neg hstat, hbody]
  · intro request context parse resp obj hstat hbody hch
    simp only [generateDrinkWithOpenAI_]
    rw [if_neg hstat]
    simp only [hbody]
  · intro request context parse resp obj c rest hstat hbody hch hcontent
    simp only [generateDrinkWithOpenAI_]
    rw [if_neg hstat]
    simp only [hbody, hch]
    rcases hv : (jsonGetField c "message").bind (fun m => jsonGetField m "content") with _ | v
    · simp only [hv]
    · simp only [hv]
      rw [if_neg]
      simp [hcontent v hv]
  · intro request context parse resp obj c rest v hstat hbody hch hv ht hparse
    simp only [generateDrinkWithOpenAI_]
    rw [if_neg hstat]
    simp only [hbody, hch, hv]
    rw [if_pos ht]
    simp only [hparse]
  · intro payload y today key parse resp uuid ts store request g e hsan hg hremote
    simp only [generateDrink]
    rw [hsan]
    simp only
    rw [hg]
    simp only
    rw [hremote]
    rfl

/-- Witness for C4: with a parser that fails on every body, generation
with a configured key falls back to the persisted astro blueprint. -/
theorem c4_remote_fallback_witness :
    generateDrink (some ⟨"astro", 4, 4, 1991, "Ada", "Lovelace"⟩) 2026 ⟨0, 0, 1⟩
        (some "sk-test") (fun _ => none) ⟨200, "not json"⟩ "uuid-1" "ts-1" ⟨[], []⟩ =
      .ok (persistBlueprint_ ⟨[], []⟩ ⟨"astro", 4, 4, 1991, "Ada", "Lovelace"⟩
        (generateAstrologicalElixir_
          (buildGenerationContext_ ⟨"astro", 4, 4, 1991, "Ada", "Lovelace"⟩)) "uuid-1" "ts-1") :=
  c4_remote_fallback.2.2.2.2.2 (some ⟨"astro", 4, 4, 1991, "Ada", "Lovelace"⟩) 2026 ⟨0, 0, 1⟩
    "sk-test" (fun _ => none) ⟨200, "not json"⟩ "uuid-1" "ts-1" ⟨[], []⟩
    ⟨"astro", 4, 4, 1991, "Ada", "Lovelace"⟩
    (fun context _ => generateAstrologicalElixir_ context)
    "Failed to parse OpenAI response JSON." rfl rfl rfl

theorem registerVoteRows_none (id : String) :
    ∀ (rows : List DrinkRow), (∀ row ∈ rows, row.drinkId ≠ id) → registerVoteRows id rows = none := by
  intro rows
  induction rows with
  | nil => intro _; rfl
  | cons row rest ih =>
    intro h
    simp only [registerVoteRows]
    rw [if_neg (h row (List.mem_cons_self row rest))]
    rw [ih (fun r hr => h r (List.mem_cons_of_mem row hr))]

theorem registerVoteRows_found (id : String) :
    ∀ (pre : List DrinkRow) (row : DrinkRow) (post : List DrinkRow),
      (∀ r ∈ pre, r.drinkId ≠ id) → row.drinkId = id →
      registerVoteRows id (pre ++ row :: post) =
        some (pre ++ { row with voteCount := row.voteCount + 1 } :: post,
              row.voteCount, row.voteCount + 1) := by
  intro pre
  induction pre with
  | nil =>
    intro row post _ hid
    simp only [List.nil_append, registerVoteRows]
    rw [if_pos hid]
  | cons r pre ih =>
    intro row post hpre hid
    simp only [List.cons_append, registerVoteRows]
    rw [if_neg (hpre r (List.mem_cons_self r pre))]
    simp only [List.append_eq]
    simp only [ih row post (fun x hx => hpre x (List.mem_cons_of_mem r hx)) hid]

/-- C2 counterexample: an empty drink identifier matches no stored row,
yet registerVote raises the identifier-required error rather than the
not-found error; and on a catalogue with no data rows a nonempty
identifier (also matching no stored row) hits the zero-row range read,
which raises the range error rather than the not-found error.  The
store is left unchanged in both cases. -/
theorem c2_vote_counterexample :
    registerVote ⟨[], []⟩ "" "2026-01-01T00:00:00.000Z" =
      (⟨[], []⟩, .error "A valid drink identifier is required to register a vote.") ∧
    ("A valid drink identifier is required to register a vote." : String) ≠
      "The requested drink could not be located." ∧
    registerVote ⟨[], []⟩ "missing-id" "2026-01-01T00:00:00.000Z" =
      (⟨[], []⟩, .error "The number of rows in the range must be at least 1.") ∧
    ("The number of rows in the range must be at least 1." : String) ≠
      "The requested drink could not be located." :=
  ⟨rfl, by decide, rfl, by decide⟩

/-- C2 amended: an empty identifier raises the identifier-required
error with no mutation; a nonempty identifier on a catalogue with no
data rows raises the range error of the zero-row range read, with no
mutation; a nonempty identifier matching no row of a nonempty catalogue
raises the not-found error with no mutation; and a nonempty identifier
matching a row sets exactly that first matching row's vote count to its
previous value plus one, leaves every other row unchanged, and appends
exactly one audit row whose previous and new counts are the previous
value and the previous value plus one. -/
theorem c2_vote_registration (store : Store) (id now : String) :
    (id = "" → registerVote store id now =
      (store, .error "A valid drink identifier is required to register a vote.")) ∧
    (id ≠ "" → store.primary = [] →
      registerVote store id now =
        (store, .error "The number of rows in the range must be at least 1.")) ∧
    (id ≠ "" → store.primary ≠ [] → (∀ row ∈ store.primary, row.drinkId ≠ id) →
      registerVote store id now = (store, .error "The requested drink could not be located.")) ∧
    (∀ (pre : List DrinkRow) (row : DrinkRow) (post : List DrinkRow),
      id ≠ "" → store.primary = pre ++ row :: post → (∀ r ∈ pre, r.drinkId ≠ id) →
      row.drinkId = id →
      registerVote store id now =
        ({ primary := pre ++ { row with voteCount := row.voteCount + 1 } :: post,
           votes := store.votes ++ [⟨now, id, row.voteCount, row.voteCount + 1, "increment"⟩] },
         .ok (id, row.voteCount + 1))) := by
  refine ⟨?_, ?_, ?_, ?_⟩
  · intro h
    simp only [registerVote]
    rw [if_pos h]
  · intro h hemp
    simp only [registerVote]
    rw [if_neg h, if_pos hemp]
  · intro h hne hnone
    simp only [registerVote]
    rw [if_neg h, if_neg hne]
    rw [registerVoteRows_none id store.primary hnone]
  · intro pre row post h hsplit hpre hid
    simp only [registerVote]
    rw [if_neg h, hsplit]
    rw [if_neg (by simp)]
    rw [registerVoteRows_found id pre row post hpre hid]

/-- Witness for C2 amended on a one-row store: the matching row's count
goes from zero to one and a matching audit row is appended. -/
theorem c2_vote_registration_witness :
    registerVote ⟨[⟨"id-1", "t0", "astro", "Astrological Elixir Generator", "Ada", "Lovelace",
        5, 15, 1990, "r", "d", "", "", "c", 0⟩], []⟩ "id-1" "t1" =
      (⟨[⟨"id-1", "t0", "astro", "Astrological Elixir Generator", "Ada", "Lovelace",
          5, 15, 1990, "r", "d", "", "", "c", 1⟩],
        [⟨"t1", "id-1", 0, 1, "increment"⟩]⟩,
       .ok ("id-1", 1)) := by
  have h := (c2_vote_registration
    ⟨[⟨"id-1", "t0", "astro", "Astrological Elixir Generator", "Ada", "Lovelace",
        5, 15, 1990, "r", "d", "", "", "c", 0⟩], []⟩ "id-1" "t1").2.2.2
    [] ⟨"id-1", "t0", "astro", "Astrological Elixir Generator", "Ada", "Lovelace",
        5, 15, 1990, "r", "d", "", "", "c", 0⟩ []
    (by decide) rfl (by intro r hr; cases hr) rfl
  rw [h]
  norm_num

theorem splitOnCharList_ne_nil (sep : Char) : ∀ (l : List Char), splitOnCharList sep l ≠ [] := by
  intro l
  induction l with
  | nil => simp [splitOnCharList]
  | cons c cs ih =>
    simp only [splitOnCharList]
    by_cases h : (c == sep) = true
    · rw [if_pos h]
      simp
    · rw [if_neg h]
      rcases hs : splitOnCharList sep cs with _ | ⟨g, gs⟩
      · simp
      · simp

theorem splitOnCharList_no_sep (sep : Char) :
    ∀ (a : List Char), (∀ c ∈ a, c ≠ sep) → splitOnCharList sep a = [a] := by
  intro a
  induction a with
  | nil => intro _; rfl
  | cons c cs ih =>
    intro h
    simp only [splitOnCharList]
    rw [if_neg (by simpa using h c (List.mem_cons_self c cs))]
    rw [ih (fun x hx => h x (List.mem_cons_of_mem c hx))]

theorem splitOnCharList_append (sep : Char) :
    ∀ (a b : List Char) (g : List Char) (gs : List (List Char)),
      (∀ c ∈ a, c ≠ sep) → splitOnCharList sep b = g :: gs →
      splitOnCharList sep (a ++ b) = (a ++ g) :: gs := by
  intro a
  induction a with
  | nil =>
    intro b g gs _ hb
    simpa using hb
  | cons c a ih =>
    intro b g gs h hb
    simp only [List.cons_append, splitOnCharList]
    rw [if_neg (by simpa using h c (List.mem_cons_self c a))]
    simp only [List.append_eq]
    simp only [ih b g gs (fun x hx => h x (List.mem_cons_of_mem c hx)) hb]

theorem splitOnCharList_cons_sep (sep : Char) (t : List Char) :
    splitOnCharList sep (sep :: t) = [] :: splitOnCharList sep t := by
  simp [splitOnCharList]

theorem splitOnCharList_cons_of_ne (sep c : Char) (t : List Char) (g : List Char)
    (gs : List (List Char)) (hc : c ≠ sep) (ht : splitOnCharList sep t = g :: gs) :
    splitOnCharList sep (c :: t) = (c :: g) :: gs := by
  simp only [splitOnCharList]
  rw [if_neg (by simpa using hc), ht]

theorem isJsWs_space : isJsWs ' ' = true := rfl

theorem trimChars_cons_space (x : List Char) : trimChars (' ' :: x) = trimChars x := by
  simp only [trimChars, List.dropWhile_cons_of_pos isJsWs_space]

theorem trimChars_append_space : ∀ (x : List Char), trimChars (x ++ [' ']) = trimChars x := by
  intro x
  induction x with
  | nil => rfl
  | cons c x ih =>
    by_cases h : isJsWs c = true
    · simp only [List.cons_append, trimChars, List.dropWhile_cons_of_pos h] at ih ⊢
      exact ih
    · simp only [List.cons_append, trimChars, List.dropWhile_cons_of_neg h]
      rw [show (c :: (x ++ [' '])).reverse = ' ' :: (c :: x).reverse by simp]
      rw [List.dropWhile_cons_of_pos isJsWs_space]

theorem split_join_map_trim :
    ∀ (l : List String), (∀ x ∈ l, bulletChar ∉ x.data) → l ≠ [] →
      (splitOnCharList bulletChar (joinStrings bulletSep l).data).map trimChars =
        l.map (fun s => trimChars s.data) := by
  intro l
  induction l with
  | nil => intro _ h; exact absurd rfl h
  | cons x xs ih =>
    intro hfree _
    have hx : ∀ c ∈ x.data, c ≠ bulletChar := by
      intro c hc he
      exact hfree x (List.mem_cons_self x xs) (he ▸ hc)
    cases xs with
    | nil =>
      show (splitOnCharList bulletChar x.data).map trimChars = [trimChars x.data]
      rw [splitOnCharList_no_sep bulletChar x.data hx]
      rfl
    | cons y ys =>
      have hdata : (joinStrings bulletSep (x :: y :: ys)).data =
          (x.data ++ [' ']) ++
            (bulletChar :: (' ' :: (joinStrings bulletSep (y :: ys)).data)) := by
        show (x ++ bulletSep ++ joinStrings bulletSep (y :: ys)).data = _
        have : (x ++ bulletSep ++ joinStrings bulletSep (y :: ys)).data =
            x.data ++ [' ', bulletChar, ' '] ++ (joinStrings bulletSep (y :: ys)).data := rfl
        rw [this]
        simp
      obtain ⟨g, gs, hJ⟩ : ∃ g gs,
          splitOnCharList bulletChar (joinStrings bulletSep (y :: ys)).data = g :: gs := by
        rcases hs : splitOnCharList bulletChar (joinStrings bulletSep (y :: ys)).data with _ | ⟨g, gs⟩
        · exact absurd hs (splitOnCharList_ne_nil bulletChar _)
        · exact ⟨g, gs, rfl⟩
      have hsp : splitOnCharList bulletChar (joinStrings bulletSep (x :: y :: ys)).data =
          ((x.data ++ [' ']) ++ []) :: ((' ' :: g) :: gs) := by
        rw [hdata]
        apply splitOnCharList_append
        · intro c hc
          rcases List.mem_append.mp hc with h1 | h1
          · exact hx c h1
          · simp only [List.mem_singleton] at h1
            subst h1
            decide
        · rw [splitOnCharList_cons_sep]
          rw [splitOnCharList_cons_of_ne bulletChar ' ' _ g gs (by decide) hJ]
      rw [hsp]
      have hIH := ih (fun s hs => hfree s (List.mem_cons_of_mem x hs)) (by simp)
      rw [hJ] at hIH
      simp only [List.map_cons] at hIH ⊢
      rw [List.append_nil, trimChars_append_space, trimChars_cons_space]
      exact congrArg (List.cons (trimChars x.data)) hIH

theorem readBulletCell_joinStrings (l : List String)
    (hfree : ∀ x ∈ l, bulletChar ∉ x.data) (htrim : ∀ x ∈ l, jsTrim x = x)
    (hne : l ≠ [""]) : readBulletCell (joinStrings bulletSep l) = l := by
  rcases l with _ | ⟨x, xs⟩
  · rfl
  · have hcell : joinStrings bulletSep (x :: xs) ≠ "" := by
      cases xs with
      | nil =>
        show x ≠ ""
        intro h
        exact hne (by rw [h])
      | cons y ys =>
        intro h
        have hd := congrArg String.data h
        have : (joinStrings bulletSep (x :: y :: ys)).data =
            x.data ++ [' ', bulletChar, ' '] ++ (joinStrings bulletSep (y :: ys)).data := rfl
        rw [this] at hd
        simp at hd
    unfold readBulletCell
    rw [if_neg hcell]
    unfold splitOnCharStr
    rw [List.map_map]
    have hmap : (splitOnCharList bulletChar (joinStrings bulletSep (x :: xs)).data).map
        (jsTrim ∘ String.mk) =
        (splitOnCharList bulletChar (joinStrings bulletSep (x :: xs)).data).map
          (String.mk ∘ trimChars) := rfl
    rw [hmap, ← List.map_map]
    rw [split_join_map_trim (x :: xs) hfree (by simp)]
    rw [List.map_map]
    have hmap2 : ((x :: xs).map (String.mk ∘ fun s => trimChars s.data)) =
        (x :: xs).map jsTrim := rfl
    rw [hmap2]
    calc (x :: xs).map jsTrim = (x :: xs).map id := List.map_congr_left htrim
    _ = x :: xs := List.map_id _

/-- C10 counterexample: a blueprint whose ingredient list is the single
empty string (an entry that is bullet-free and equal to its own trimmed
form) is stored as an empty cell and read back as the empty list, so the
persist-then-list round trip does not return the original list. -/
theorem c10_roundtrip_counterexample :
    bulletChar ∉ ("" : String).data ∧ jsTrim "" = "" ∧
    (getStoredDrinks (persistBlueprint_ ⟨[], []⟩ ⟨"astro", 4, 4, 1991, "A", "B"⟩
        ⟨"D", "R", [""], [], "C"⟩ "id-1" "t1").1).map (fun r => r.ingredients) = [[]] ∧
    ([[]] : List (List String)) ≠ [[""]] :=
  ⟨by decide, rfl, rfl, by decide⟩

/-- C10 amended: for every blueprint whose ingredient and instruction
entries contain no bullet character and equal their own trimmed form,
and whose ingredient and instruction lists are not the singleton empty
string (which the bullet join stores as an empty cell), the catalogue
rebuilt by getStoredDrinks after persistBlueprint_ extends the previous
catalogue by exactly one record carrying the original ingredient and
instruction lists; the empty list is stored as an empty cell and read
back as the empty list. -/
theorem c10_persist_list_roundtrip (store : Store) (request : GenerationRequest)
    (blueprint : RecipeBlueprint) (uuid ts : String)
    (hing : ∀ x ∈ blueprint.ingredients, bulletChar ∉ x.data ∧ jsTrim x = x)
    (hing1 : blueprint.ingredients ≠ [""])
    (hins : ∀ x ∈ blueprint.instructions, bulletChar ∉ x.data ∧ jsTrim x = x)
    (hins1 : blueprint.instructions ≠ [""]) :
    getStoredDrinks (persistBlueprint_ store request blueprint uuid ts).1 =
      getStoredDrinks store ++
        [{ drinkId := uuid, timestamp := ts, generatorKey := request.generatorKey,
           generatorLabel := (GENERATOR_LABELS.lookup request.generatorKey).getD "undefined",
           firstName := request.firstName, lastName := request.lastName,
           birthMonth := request.birthMonth, birthDay := request.birthDay,
           birthYear := request.birthYear, reason := blueprint.reason,
           drinkName := blueprint.drinkName, ingredients := blueprint.ingredients,
           instructions := blueprint.instructions, compatibility := blueprint.compatibility,
           voteCount := 0 }] := by
  unfold getStoredDrinks persistBlueprint_
  simp only [List.map_append, List.map_cons, List.map_nil]
  rw [readBulletCell_joinStrings blueprint.ingredients
      (fun x hx => (hing x hx).1) (fun x hx => (hing x hx).2) hing1,
    readBulletCell_joinStrings blueprint.instructions
      (fun x hx => (hins x hx).1) (fun x hx => (hins x hx).2) hins1]

/-- Witness for C10 on a two-ingredient blueprint and on empty
instruction lists. -/
theorem c10_persist_list_roundtrip_witness :
    getStoredDrinks (persistBlueprint_ ⟨[], []⟩ ⟨"astro", 4, 4, 1991, "Ada", "Lovelace"⟩
        ⟨"Drink", "Reason", ["gin - 2 oz", "tonic - 4 oz"], [], "Compat"⟩ "id-9" "t9").1 =
      [{ drinkId := "id-9", timestamp := "t9", generatorKey := "astro",
         generatorLabel := "Astrological Elixir Generator", firstName := "Ada",
         lastName := "Lovelace", birthMonth := 4, birthDay := 4, birthYear := 1991,
         reason := "Reason", drinkName := "Drink",
         ingredients := ["gin - 2 oz", "tonic - 4 oz"], instructions := [],
         compatibility := "Compat", voteCount := 0 }] := by
  have h := c10_persist_list_roundtrip ⟨[], []⟩ ⟨"astro", 4, 4, 1991, "Ada", "Lovelace"⟩
    ⟨"Drink", "Reason", ["gin - 2 oz", "tonic - 4 oz"], [], "Compat"⟩ "id-9" "t9"
    (by decide) (by decide) (by decide) (by decide)
  rw [h]
  rfl

end MythicMixology
